import Mathlib

/-!
Verification of the caviar price-monitor extraction pipeline
(`caviar_scraper.py`, `main.py`, `email_digest.py`).

The Python sources are shallowly embedded: machine floats become exact
rationals (`ℚ`), Python strings become Lean `String`/`List Char`, Python
`None`/falsiness becomes `Option`/explicit emptiness tests, and the small
regular expressions used by the pattern library are embedded through an
executable backtracking matcher over an explicit regex AST.
-/

/-! ## Text primitives -/

/-- ASCII lowering of a character, mirroring `str.lower()` on the ASCII
inputs exercised by the pipeline. -/
def pyLowerChar (c : Char) : Char := c.toLower

/-- Source: `text.lower()` (ASCII-faithful). -/
def pyLower (s : String) : String := String.mk (s.data.map pyLowerChar)

/-- Python regex word character (`\w` / the two sides of `\b`): `[a-zA-Z0-9_]`. -/
def isWordChar (c : Char) : Bool := c.isAlpha || c.isDigit || c = '_'

/-- Python regex whitespace (`\s`): space, tab, newline, CR, FF, VT. -/
def wsChar (c : Char) : Bool :=
  c = ' ' || c = '\t' || c = '\n' || c = '\r' || c = '\x0c' || c = '\x0b'

/-- Source: `p` is a leading segment of `s` (used for substring search). -/
def leadsWith : List Char → List Char → Bool
  | [], _ => true
  | _ :: _, [] => false
  | a :: as, b :: bs => a = b && leadsWith as bs

/-- Python's `needle in haystack` substring test on char lists. -/
def hasSub : List Char → List Char → Bool
  | n, [] => leadsWith n []
  | n, c :: t => leadsWith n (c :: t) || hasSub n t

/-- Python's `w in t` on strings. -/
def subStr (w t : String) : Bool := hasSub w.data t.data

/-! ## A regex engine for the pattern library

The species / accessory / grade patterns of the sources use only literals,
`\b`, `\s`, `.`, alternation, optional atoms (`?`) and starred atoms
(`*`).  `Rx` is that fragment; `rmatch` is a fuel-bounded backtracking
matcher that carries the previous character so `\b` can be decided. -/

inductive Rx where
  | fail
  | eps
  | ch (c : Char)
  | any
  | ws
  | wb
  | alt (a b : Rx) : Rx
  | cat (a b : Rx) : Rx
  | star (a : Rx) : Rx
  | opt (a : Rx) : Rx
deriving DecidableEq

/-- Word-boundary test between the previous character and the rest. -/
def atBoundary (p : Option Char) (s : List Char) : Bool :=
  let l := match p with | none => false | some c => isWordChar c
  let r := match s with | [] => false | c :: _ => isWordChar c
  l != r

/-- Backtracking matcher in continuation style; `p` is the character just
before the current position (for `\b`), `k` the continuation.  The fuel
only bounds recursion depth; it is chosen large enough at every call
site that it never runs out on the finite texts involved. -/
def rmatch : Nat → Rx → Option Char → List Char → (Option Char → List Char → Bool) → Bool
  | 0, _, _, _, _ => false
  | _ + 1, .fail, _, _, _ => false
  | _ + 1, .eps, p, s, k => k p s
  | _ + 1, .ch c, _, s, k =>
      match s with
      | [] => false
      | a :: s' => a = c && k (some a) s'
  | _ + 1, .any, _, s, k =>
      match s with
      | [] => false
      | a :: s' => k (some a) s'
  | _ + 1, .ws, _, s, k =>
      match s with
      | [] => false
      | a :: s' => wsChar a && k (some a) s'
  | _ + 1, .wb, p, s, k => atBoundary p s && k p s
  | f + 1, .alt a b, p, s, k => rmatch f a p s k || rmatch f b p s k
  | f + 1, .cat a b, p, s, k => rmatch f a p s fun p' s' => rmatch f b p' s' k
  | f + 1, .opt a, p, s, k => rmatch f a p s k || k p s
  | f + 1, .star a, p, s, k =>
      k p s || rmatch f a p s fun p' s' =>
        decide (s'.length < s.length) && rmatch f (.star a) p' s' k

/-- Structural size of a regex, used to pick enough fuel. -/
def rxSize : Rx → Nat
  | .fail | .eps | .ch _ | .any | .ws | .wb => 1
  | .alt a b | .cat a b => rxSize a + rxSize b + 1
  | .star a | .opt a => rxSize a + 1

/-- Attempt a match of `r` starting at every position of `t`
(`re.search` semantics, returning only whether some match exists). -/
def searchFrom : Nat → Nat → Rx → Option Char → List Char → Bool
  | 0, _, _, _, _ => false
  | f + 1, fuel, r, p, s =>
      rmatch fuel r p s (fun _ _ => true) ||
      match s with
      | [] => false
      | c :: s' => searchFrom f fuel r (some c) s'

/-- Source: `re.search(r, t)` as a Boolean. -/
def rsearch (r : Rx) (t : List Char) : Bool :=
  searchFrom (t.length + 1) ((t.length + 2) * (rxSize r + 2) * 4) r none t

/-- A literal regex (a concatenation of character atoms). -/
def litR (s : String) : Rx := s.data.foldr (fun c r => .cat (.ch c) r) .eps

/-- Source: `\btok\b` — the token as a whole word. -/
def wordR (s : String) : Rx := .cat .wb (.cat (litR s) .wb)

/-- Source: `a|b|...` over a list (an empty list never matches, like `re.compile("")`
never arises here). -/
def altsR (l : List Rx) : Rx := l.foldr .alt .fail

/-! ## caviar_scraper.py — pattern library -/

namespace CaviarScraper

/-- Source: `CAVIAR_WORD = re.compile(r"\bcaviar\b", re.I)` applied via `.search`. -/
def caviarWord (t : String) : Bool := rsearch (wordR "caviar") t.data

/-- Source: `SPECIES_PATTERNS` of caviar_scraper.py: ordered `(regex, common, latin)`
rules.  Each Python regex is transcribed into `Rx`; texts are lowercased
before matching so the `re.I` flag is immaterial. -/
def SPECIES_PATTERNS : List (Rx × String × String) :=
  [ -- r"\bbeluga\b|\bhuso\s*huso\b"
    (.alt (wordR "beluga")
       (.cat .wb (.cat (litR "huso") (.cat (.star .ws) (.cat (litR "huso") .wb)))),
     "Beluga", "Huso huso"),
    -- r"\bkaluga\b|\bhuso\s*dauricus\b|\bkeluga\b"
    (altsR [wordR "kaluga",
            .cat .wb (.cat (litR "huso") (.cat (.star .ws) (.cat (litR "dauricus") .wb))),
            wordR "keluga"],
     "Kaluga", "Huso dauricus"),
    -- r"\bkaluga\s*hybrid\b|\b(amur|schrenckii).*(kaluga|keluga)|(kaluga|keluga).*(amur|schrenckii)"
    (altsR [.cat .wb (.cat (litR "kaluga") (.cat (.star .ws) (.cat (litR "hybrid") .wb))),
            .cat .wb (.cat (.alt (litR "amur") (litR "schrenckii"))
              (.cat (.star .any) (.alt (litR "kaluga") (litR "keluga")))),
            .cat (.alt (litR "kaluga") (litR "keluga"))
              (.cat (.star .any) (.alt (litR "amur") (litR "schrenckii")))],
     "Kaluga Hybrid", "Huso dauricus × Acipenser schrenckii"),
    -- r"\bamur\b|\bacipenser\s*schrenckii\b|\bschrenckii\b"
    (altsR [wordR "amur",
            .cat .wb (.cat (litR "acipenser") (.cat (.star .ws) (.cat (litR "schrenckii") .wb))),
            wordR "schrenckii"],
     "Amur", "Acipenser schrenckii"),
    -- r"\bosc?ietr?a\b|\bossetra\b|\bgueldenstaedtii\b"
    (altsR [.cat .wb (.cat (litR "os") (.cat (.opt (.ch 'c')) (.cat (litR "ietr")
              (.cat (.opt (.ch 'r')) (.cat (.ch 'a') .wb))))),
            wordR "ossetra",
            wordR "gueldenstaedtii"],
     "Osetra", "Acipenser gueldenstaedtii"),
    -- r"\bsevruga\b|\bacipenser\s*stellatus\b|\bstellatus\b"
    (altsR [wordR "sevruga",
            .cat .wb (.cat (litR "acipenser") (.cat (.star .ws) (.cat (litR "stellatus") .wb))),
            wordR "stellatus"],
     "Sevruga", "Acipenser stellatus"),
    -- r"\bsiberian\b|\bacipenser\s*baerii\b|\bbaerii\b"
    (altsR [wordR "siberian",
            .cat .wb (.cat (litR "acipenser") (.cat (.star .ws) (.cat (litR "baerii") .wb))),
            wordR "baerii"],
     "Siberian", "Acipenser baerii"),
    -- r"\bwhite\s*sturgeon\b|\bacipenser\s*transmontanus\b|\btransmontanus\b"
    (altsR [.cat .wb (.cat (litR "white") (.cat (.star .ws) (.cat (litR "sturgeon") .wb))),
            .cat .wb (.cat (litR "acipenser") (.cat (.star .ws) (.cat (litR "transmontanus") .wb))),
            wordR "transmontanus"],
     "White Sturgeon", "Acipenser transmontanus"),
    -- r"\bsterlet\b|\bacipenser\s*ruthenus\b|\bruthenus\b"
    (altsR [wordR "sterlet",
            .cat .wb (.cat (litR "acipenser") (.cat (.star .ws) (.cat (litR "ruthenus") .wb))),
            wordR "ruthenus"],
     "Sterlet", "Acipenser ruthenus"),
    -- r"\bhackleback\b|\bshovelnose\b|\bscaphirhynchus\s*platorynchus\b"
    (altsR [wordR "hackleback",
            wordR "shovelnose",
            .cat .wb (.cat (litR "scaphirhynchus") (.cat (.star .ws) (.cat (litR "platorynchus") .wb)))],
     "Hackleback", "Scaphirhynchus platorynchus") ]

/-- The second entry of `SPECIES_PATTERNS` (the plain `Kaluga` rule),
named so theorems can speak about it. -/
def kalugaPlainRx : Rx :=
  altsR [wordR "kaluga",
         .cat .wb (.cat (litR "huso") (.cat (.star .ws) (.cat (litR "dauricus") .wb))),
         wordR "keluga"]

/-- The third entry of `SPECIES_PATTERNS` (the `Kaluga Hybrid` rule),
named so theorems can speak about it. -/
def kalugaHybridRx : Rx :=
  altsR [.cat .wb (.cat (litR "kaluga") (.cat (.star .ws) (.cat (litR "hybrid") .wb))),
         .cat .wb (.cat (.alt (litR "amur") (litR "schrenckii"))
           (.cat (.star .any) (.alt (litR "kaluga") (litR "keluga")))),
         .cat (.alt (litR "kaluga") (litR "keluga"))
           (.cat (.star .any) (.alt (litR "amur") (litR "schrenckii")))]

/-- Source: `extract_species(text)`: lowercase, then first matching rule of
`SPECIES_PATTERNS` wins; Python's `(None, None)` becomes `none`. -/
def extract_species (text : String) : Option (String × String) :=
  let t := pyLower text
  SPECIES_PATTERNS.findSome? fun pcl =>
    if rsearch pcl.1 t.data then some pcl.2 else none

end CaviarScraper

/-! ## main.py — pattern library -/

namespace MainPy

/-- Source: `SPECIES_PATTERNS` of main.py (no Kaluga-Hybrid and no Amur rule). -/
def SPECIES_PATTERNS : List (Rx × String × String) :=
  [ -- r"\bbeluga\b|\bhuso\s*huso\b"
    (.alt (wordR "beluga")
       (.cat .wb (.cat (litR "huso") (.cat (.star .ws) (.cat (litR "huso") .wb)))),
     "Beluga", "Huso huso"),
    -- r"\bkaluga\b|\bhuso\s*dauricus\b"
    (.alt (wordR "kaluga")
       (.cat .wb (.cat (litR "huso") (.cat (.star .ws) (.cat (litR "dauricus") .wb)))),
     "Kaluga", "Huso dauricus"),
    -- r"\bosc?ietr?a\b|\bossetra\b|\bgueldenstaedtii\b|\bacipenser\s*gueldenstaedtii\b"
    (altsR [.cat .wb (.cat (litR "os") (.cat (.opt (.ch 'c')) (.cat (litR "ietr")
              (.cat (.opt (.ch 'r')) (.cat (.ch 'a') .wb))))),
            wordR "ossetra",
            wordR "gueldenstaedtii",
            .cat .wb (.cat (litR "acipenser") (.cat (.star .ws) (.cat (litR "gueldenstaedtii") .wb)))],
     "Osetra", "Acipenser gueldenstaedtii"),
    -- r"\bsevruga\b|\bacipenser\s*stellatus\b|\bstellatus\b"
    (altsR [wordR "sevruga",
            .cat .wb (.cat (litR "acipenser") (.cat (.star .ws) (.cat (litR "stellatus") .wb))),
            wordR "stellatus"],
     "Sevruga", "Acipenser stellatus"),
    -- r"\bsiberian\b|\ba\.?\s*baerii\b|\bacipenser\s*baerii\b|\bbaerii\b"
    (altsR [wordR "siberian",
            .cat .wb (.cat (.ch 'a') (.cat (.opt (.ch '.')) (.cat (.star .ws) (.cat (litR "baerii") .wb)))),
            .cat .wb (.cat (litR "acipenser") (.cat (.star .ws) (.cat (litR "baerii") .wb))),
            wordR "baerii"],
     "Siberian", "Acipenser baerii"),
    -- r"\bwhite\s*sturgeon\b|\ba\.?\s*transmontanus\b|\bacipenser\s*transmontanus\b|\btransmontanus\b"
    (altsR [.cat .wb (.cat (litR "white") (.cat (.star .ws) (.cat (litR "sturgeon") .wb))),
            .cat .wb (.cat (.ch 'a') (.cat (.opt (.ch '.')) (.cat (.star .ws) (.cat (litR "transmontanus") .wb)))),
            .cat .wb (.cat (litR "acipenser") (.cat (.star .ws) (.cat (litR "transmontanus") .wb))),
            wordR "transmontanus"],
     "White Sturgeon", "Acipenser transmontanus"),
    -- r"\bsterlet\b|\bacipenser\s*ruthenus\b|\bruthenus\b"
    (altsR [wordR "sterlet",
            .cat .wb (.cat (litR "acipenser") (.cat (.star .ws) (.cat (litR "ruthenus") .wb))),
            wordR "ruthenus"],
     "Sterlet", "Acipenser ruthenus"),
    -- r"\bhackleback\b|\bshovelnose\b|\bscaphirhynchus\s*platorynchus\b"
    (altsR [wordR "hackleback",
            wordR "shovelnose",
            .cat .wb (.cat (litR "scaphirhynchus") (.cat (.star .ws) (.cat (litR "platorynchus") .wb)))],
     "Hackleback", "Scaphirhynchus platorynchus") ]

/-- Source: `extract_species_any(text)` of main.py. -/
def extract_species_any (text : String) : Option (String × String) :=
  let t := pyLower text
  SPECIES_PATTERNS.findSome? fun pcl =>
    if rsearch pcl.1 t.data then some pcl.2 else none

/-- Source: `ALLOWED_SPECIES = {s[1] for s in SPECIES_PATTERNS}` (as a list;
membership is what the code uses it for). -/
def ALLOWED_SPECIES : List String := SPECIES_PATTERNS.map fun pcl => pcl.2.1

/-- Source: `ensure_sturgeon_species(species_common)`. -/
def ensure_sturgeon_species (s : String) : Bool := ALLOWED_SPECIES.contains s

end MainPy

/-! ## Accessory and non-sturgeon exclusion checks -/

namespace CaviarScraper

/-- Source: `ACCESSORY_TOKENS` of caviar_scraper.py. -/
def ACCESSORY_TOKENS : List String :=
  ["gift", "set", "bundle", "sampler", "flight", "pairing", "experience", "kit",
   "accessory", "accessories", "spoon", "opener",
   "blini", "crème fraîche", "creme fraiche", "server", "bowl", "tray", "plate", "dish",
   "cooler", "chiller", "gift card", "chips", "tote", "bag", "club", "subscription",
   "duo", "trio", "quad", "pack", "collection", "assortment", "starter", "flight"]

/-- Source: `ACCESSORY_RE = re.compile(r"|".join(rf"\b{re.escape(tok)}\b" for tok in ACCESSORY_TOKENS), re.I)`
applied via `.search`: some token occurs word-bounded. -/
def accessoryRe (t : String) : Bool :=
  rsearch (altsR (ACCESSORY_TOKENS.map wordR)) t.data

/-- Source: `is_accessory_name_only(product_name)`. -/
def is_accessory_name_only (product_name : String) : Bool :=
  accessoryRe (pyLower product_name)

/-- Source: `NON_STURGEON_TOKENS` of caviar_scraper.py. -/
def NON_STURGEON_TOKENS : List String :=
  ["salmon", "trout", "whitefish", "capelin", "lumpfish", "bowfin", "paddlefish",
   "tobiko", "masago", "ikura", "smelt", "cod roe"]

/-- Source: `mentions_non_sturgeon(text)`: any token matches word-bounded in the
lowercased text.  There is no hackleback/sturgeon carve-out here. -/
def mentions_non_sturgeon (text : String) : Bool :=
  let t := pyLower text
  NON_STURGEON_TOKENS.any fun tok => rsearch (wordR tok) t.data

/-- Source: `GRADE_RANK` of caviar_scraper.py, in insertion order. -/
def GRADE_RANK : List (String × Nat) :=
  [("imperial", 1), ("royal", 2), ("reserve", 3), ("gold", 3),
   ("classic", 4), ("select", 5), ("traditional", 6)]

/-- Source: `grade_rank(text)`: first keyword found word-bounded wins; Python's
`g.title()` on these single lowercase words capitalises the first letter,
recorded literally here. -/
def grade_rank_fn (text : String) : Nat × Option String :=
  let t := pyLower text
  match GRADE_RANK.findSome? (fun gr =>
    if rsearch (wordR gr.1) t.data then some gr else none) with
  | some (g, rank) => (rank, some (String.mk ((g.data.take 1).map Char.toUpper ++ g.data.drop 1)))
  | none => (99, none)

/-- Source: `grade_from_text(text)`. -/
def grade_from_text (text : String) : Option String := (grade_rank_fn text).2

end CaviarScraper

namespace MainPy

/-- Source: `EXCLUDE_WORDS` of main.py. -/
def EXCLUDE_WORDS : List String :=
  ["gift set", "giftset", "set", "bundle", "sampler", "flight", "pairing", "experience", "kit",
   "accessory", "accessories", "spoon", "mother of pearl", "key", "opener", "tin opener",
   "blini", "bellini", "crepe", "crème fraîche", "creme fraiche", "ice bowl", "server",
   "tray", "plate", "dish", "cooler", "chiller", "gift card", "card", "chips", "tote", "bag",
   "club", "subscription", "subscribe", "duo", "trio", "quad", "pack", "2-pack", "3-pack", "4-pack",
   "class", "tasting", "pair", "pairings", "collection", "assortment", "starter"]

/-- Source: `looks_like_accessory(text)`: plain substring membership
(`any(w in t for w in EXCLUDE_WORDS)`) on the lowercased text —
no word boundaries. -/
def looks_like_accessory (text : String) : Bool :=
  let t := pyLower text
  EXCLUDE_WORDS.any fun w => subStr w t

/-- Source: `NON_STURGEON_ROE` of main.py. -/
def NON_STURGEON_ROE : List String :=
  ["salmon roe", "trout roe", "whitefish roe", "tobiko", "masago", "ikura", "capelin roe",
   "lumpfish", "flying fish roe", "bowfin", "paddlefish", "hackleback roe"]

/-- Source: `ALLOW_HACKLEBACK_STURGEON = True`. -/
def ALLOW_HACKLEBACK_STURGEON : Bool := true

/-- Source: `contains_non_sturgeon_or_roe(text)`: substring test over
`NON_STURGEON_ROE`, with the hackleback-and-sturgeon carve-out. -/
def contains_non_sturgeon_or_roe (text : String) : Bool :=
  let t := pyLower text
  if NON_STURGEON_ROE.any fun w => subStr w t then
    if ALLOW_HACKLEBACK_STURGEON && (subStr "hackleback" t && subStr "sturgeon" t) then
      false
    else true
  else false

end MainPy

/-! ## Numeric primitives

Python's `round` is round-half-to-even; `f"{x:.1f}"`/`f"{x:.2f}"` round the
value to 1 or 2 decimal places the same way.  Floats are modelled as exact
rationals, so these are the exact-arithmetic counterparts of the float
operations (they agree with CPython away from representation-boundary
ties, and every concrete input used below is far from such a tie). -/

/-- Python `round(x)` on a rational: round half to even (the fractional
part decides, an exact half going to the even neighbour). -/
def pyRound (q : ℚ) : ℤ :=
  if q - ⌊q⌋ < 1/2 then ⌊q⌋
  else if 1/2 < q - ⌊q⌋ then ⌊q⌋ + 1
  else if ⌊q⌋ % 2 = 0 then ⌊q⌋ else ⌊q⌋ + 1

/-- Python `round(x, 2)`. -/
def round2 (q : ℚ) : ℚ := (pyRound (100 * q) : ℚ) / 100

/-- The digit character for `d < 10`. -/
def digCh (d : Nat) : Char := Char.ofNat (48 + d)

/-- Decimal digit characters of a natural number (Python `str(n)`). -/
def natChars (n : Nat) : List Char :=
  if h : n < 10 then [digCh n]
  else natChars (n / 10) ++ [digCh (n % 10)]
decreasing_by exact Nat.div_lt_self (by omega) (by omega)

/-- Python `str(z)` for an integer. -/
def intChars (z : ℤ) : List Char :=
  if z < 0 then '-' :: natChars z.natAbs else natChars z.toNat

/-- Renders `k/10` the way `f"{x:.1f}".rstrip("0").rstrip(".")` renders the
1-decimal rounding `k = round(10*x)` of `x`: the trailing `.0`
disappears, a nonzero tenths digit stays. -/
def tenthChars (k : ℤ) : List Char :=
  let a := k.natAbs
  let core :=
    if a % 10 = 0 then natChars (a / 10)
    else natChars (a / 10) ++ '.' :: [digCh (a % 10)]
  if k < 0 then '-' :: core else core

/-- Grams per ounce: the literal `28.3495` of the sources, as an exact
rational. -/
def OZ_G : ℚ := 283495 / 10000

/-! ## The `SIZE_RE` scanner

`SIZE_RE = re.compile(r'(\d+(?:\.\d+)?)\s*(g|gram|grams|oz|ounce|ounces)\b', re.I)`.
`parse_size` uses `SIZE_RE.search(text)`: the leftmost position where a
greedy digit run, an optional fraction, optional whitespace and a unit
alternative (tried in the written order, each requiring a word boundary
after it) match.  As no unit starts with a digit or a dot, the greedy
scan below never needs the backtracking a general regex engine performs
inside `\d+`. -/

/-- Greedy digit run with accumulator (`\d+` continuation). -/
def runDigits : Nat → List Char → Nat × List Char
  | acc, [] => (acc, [])
  | acc, c :: s =>
      if c.isDigit then runDigits (10 * acc + (c.toNat - 48)) s else (acc, c :: s)

/-- Greedy digit run that also counts how many digits were consumed
(for the fractional part). -/
def runDigitsLen : Nat → Nat → List Char → Nat × Nat × List Char
  | acc, cnt, [] => (acc, cnt, [])
  | acc, cnt, c :: s =>
      if c.isDigit then runDigitsLen (10 * acc + (c.toNat - 48)) (cnt + 1) s
      else (acc, cnt, c :: s)

/-- Greedy `\s*`. -/
def skipWs : List Char → List Char
  | [] => []
  | c :: s => if wsChar c then skipWs s else c :: s

/-- The unit alternatives of `SIZE_RE`, in the pattern's order. -/
def unitList : List (List Char) :=
  ["g".data, "gram".data, "grams".data, "oz".data, "ounce".data, "ounces".data]

/-- Case-insensitive token match at the head of the text; returns the rest. -/
def takeTok : List Char → List Char → Option (List Char)
  | [], s => some s
  | _ :: _, [] => none
  | p :: ps, c :: cs => if c.toLower = p then takeTok ps cs else none

/-- The `\b` after the unit: the next character (if any) is not a word
character. -/
def nonWordHead : List Char → Bool
  | [] => true
  | c :: _ => !isWordChar c

/-- First unit alternative matching at the head with a word boundary after
it. -/
def unitAt (s : List Char) : Option (List Char × List Char) :=
  unitList.findSome? fun u =>
    match takeTok u s with
    | some rest => if nonWordHead rest then some (u, rest) else none
    | none => none

/-- Attempt the full `SIZE_RE` match at the current position; on success
return the grams value `val * 28.3495 if unit.startswith("oz") else val`
(so `ounce`/`ounces`, which do not start with `"oz"`, are taken as grams —
exactly as the Python expression reads). -/
def tryNum (s : List Char) : Option ℚ :=
  match s with
  | [] => none
  | c :: _ =>
    if c.isDigit then
      let ns1 := runDigits 0 s
      let qs2 : ℚ × List Char :=
        match ns1.2 with
        | '.' :: t =>
          match t with
          | d :: _ =>
            if d.isDigit then
              let mls := runDigitsLen 0 0 t
              ((ns1.1 : ℚ) + (mls.1 : ℚ) / (10 : ℚ) ^ mls.2.1, mls.2.2)
            else ((ns1.1 : ℚ), ns1.2)
          | [] => ((ns1.1 : ℚ), ns1.2)
        | _ => ((ns1.1 : ℚ), ns1.2)
      match unitAt (skipWs qs2.2) with
      | some ur => some (if leadsWith "oz".data ur.1 then qs2.1 * OZ_G else qs2.1)
      | none => none
    else none

/-- Source: `SIZE_RE.search`: try every start position, leftmost success wins. -/
def scanSize : List Char → Option ℚ
  | [] => none
  | c :: s =>
    match tryNum (c :: s) with
    | some v => some v
    | none => scanSize s

namespace CaviarScraper

/-- Source: `parse_size(text)` of caviar_scraper.py (grams or `None`). -/
def parse_size (text : String) : Option ℚ := scanSize text.data

/-- The ounce-string characters of `size_label_both`: `str(int(round(oz)))`
when `oz` is within 0.05 of an integer, else `f"{oz:.1f}"` with the
trailing zero stripped. -/
def ozChars (oz : ℚ) : List Char :=
  if |oz - (pyRound oz : ℚ)| < 1/20 then intChars (pyRound oz)
  else tenthChars (pyRound (10 * oz))

/-- Source: `size_label_both(size_g)`: `None` on a falsy size, else
`f"{oz_str} oz / {g} g"` with `g = int(round(size_g))` and
`oz = size_g / 28.3495`. -/
def size_label_both (size_g : ℚ) : Option String :=
  if size_g = 0 then none
  else
    some (String.mk (ozChars (size_g / OZ_G) ++
      (" oz / ").data ++ intChars (pyRound size_g) ++ (" g").data))

end CaviarScraper

namespace MainPy

/-- The grams component of main.py's `parse_size(text)` (which returns
`(grams, label_raw)`; the raw-label component is unused by every claim and
is not modelled). -/
def parse_size_g (text : String) : Option ℚ := scanSize text.data

/-- Source: `infer_packaging(text)`. -/
def infer_packaging (text : String) : Option String :=
  let t := pyLower text
  if subStr "tin" t then some "tin"
  else if subStr "jar" t then some "jar"
  else none

/-- Source: `grams_to_label_both(size_g, packaging)`: same ounce/gram rendering as
caviar_scraper's `size_label_both`, with the ` oz` suffix attached to the
ounce string before joining, plus an optional packaging suffix. -/
def grams_to_label_both (size_g : ℚ) (packaging : Option String) : Option String :=
  if size_g = 0 then none
  else
    let ozStr := CaviarScraper.ozChars (size_g / OZ_G) ++ (" oz").data
    let base := ozStr ++ (" / ").data ++ intChars (pyRound size_g) ++ (" g").data
    some (String.mk (base ++ (match packaging with
      | some p => ' ' :: p.data
      | none => [])))

end MainPy

/-! ## Vendor canonicalization (caviar_scraper.py) -/

namespace CaviarScraper

/-- Source: `ALLOW_BELUGA_DOMAINS = set()` — empty: never accept true Beluga by
token alone. -/
def ALLOW_BELUGA_DOMAINS : List String := []

/-- Source: `VENDOR_SPECIES_CANON`: vendor → (marketed species → canonical
(common, latin)). -/
def VENDOR_SPECIES_CANON : List (String × List (String × String × String)) :=
  [("Pearl Street Caviar",
     [("Beluga", ("Kaluga Hybrid", "Huso dauricus × Acipenser schrenckii"))])]

/-- Source: `VENDOR_HOME_STATE` of caviar_scraper.py. -/
def VENDOR_HOME_STATE : List (String × String) :=
  [("Marshallberg Farm", "NC"), ("Island Creek", "MA"), ("Pearl Street Caviar", "NY"),
   ("Marky's", "FL"), ("Bemka / CaviarLover", "FL"), ("Sterling", "CA"),
   ("Tsar Nicoulai", "CA")]

/-- Source: `vendor_state(vendor_name)` with default `"US"`. -/
def vendor_state (vendor_name : String) : String :=
  (VENDOR_HOME_STATE.lookup vendor_name).getD "US"

/-- Source: `_canonicalize_species(vendor, species, latin, url)`.  The `host`
argument stands for `norm_host(urlparse(url).netloc)`, which the theorems
quantify over (with `ALLOW_BELUGA_DOMAINS` empty, no host is ever
allowed). -/
def canonicalize_species (vendor species latin host : String) :
    Option String × Option String :=
  if species = "Beluga" && !(ALLOW_BELUGA_DOMAINS.contains host) then
    match (VENDOR_SPECIES_CANON.lookup vendor).bind fun m => m.lookup "Beluga" with
    | some cl => (some cl.1, some cl.2)
    | none => (none, none)
  else
    match (VENDOR_SPECIES_CANON.lookup vendor).bind fun m => m.lookup species with
    | some cl => (some cl.1, some cl.2)
    | none => (some species, some latin)

/-- The species gate of `scrape_product` around `_canonicalize_species`:
after canonicalization, a falsy species aborts the page with no
observation (`if not species: return []`); otherwise the kept
`(species, latin)` pair labels every emitted row. -/
def scrape_product_species (vendor species latin host : String) :
    Option (String × Option String) :=
  match canonicalize_species vendor species latin host with
  | (some s, l) => if s = "" then none else some (s, l)
  | (none, _) => none

/-! ## scrape_product candidate rows and the sanity band -/

/-- A candidate observation dict built inside `scrape_product`
(caviar_scraper.py). -/
structure ScrapeRow where
  vendor : String
  url : String
  name : String
  species : String
  species_latin : Option String
  grade : Option String
  currency : String
  price : ℚ
  size_g : ℚ
  size_label : Option String
  per_g : ℚ
  origin_state : String
deriving DecidableEq

/-- The final sanity filter of `scrape_product`: drop any candidate with
`per_g <= 0 or per_g > 100`; what survives is returned (and stored). -/
def sanity_filter (out : List ScrapeRow) : List ScrapeRow :=
  out.filter fun r => !(decide (r.per_g ≤ 0) || decide (r.per_g > 100))

end CaviarScraper

/-! ## main.py — scrape_product_page rows and its final guard -/

namespace MainPy

/-- An observation dict built inside `scrape_product_page` (main.py). -/
structure MainRow where
  name : String
  price : ℚ
  currency : String
  size_g : ℚ
  size_label : String
  per_g : ℚ
  url : String
  species : Option String
  species_latin : Option String
  origin_country : Option String
  origin_notes : Option String
deriving DecidableEq

/-- Source: `REQUIRE_SPECIES` defaults to `1`. -/
def REQUIRE_SPECIES : Nat := 1

/-- Python truthiness of the `species` field (`p.get("species")`). -/
def speciesTruthyM (s : Option String) : Bool :=
  match s with
  | some v => decide (v ≠ "")
  | none => false

/-- The final guard of `scrape_product_page` (main.py): when
`REQUIRE_SPECIES == 1`, purge rows whose species is falsy or not in
`ALLOWED_SPECIES`.  This is the only whole-list filter applied to the
collected candidates before they are returned — there is no
price-per-gram band here. -/
def final_species_purge (out : List MainRow) : List MainRow :=
  if REQUIRE_SPECIES = 1 then
    out.filter fun p => speciesTruthyM p.species &&
      ensure_sturgeon_species (p.species.getD "")
  else out

/-- The observation appended in the JSON-LD branch of
`scrape_product_page` (main.py lines 587–593): note
`per_g = float(price)/float(size_g)` with no rounding and no band
check, and `size_label = grams_to_label_both(size_g, packaging) or "n/a"`. -/
def ld_observation (base_name : String) (price : ℚ) (currency : String)
    (size_g : ℚ) (pack : Option String) (url : String)
    (sp : Option String × Option String)
    (origin : Option String × Option String) : MainRow :=
  ⟨base_name, price, currency, size_g,
   (grams_to_label_both size_g pack).getD "n/a",
   price / size_g, url, sp.1, sp.2, origin.1, origin.2⟩

end MainPy

/-! ## Observation store queries -/

namespace CaviarScraper

/-- A row of the `prices` table as written by `store` (caviar_scraper.py). -/
structure DbRow where
  vendor : String
  url : String
  name : String
  species : Option String
  species_latin : Option String
  grade : Option String
  currency : String
  price : ℚ
  size_g : ℚ
  size_label : Option String
  per_g : ℚ
  origin_state : String
  seen_at : Nat
deriving DecidableEq

/-- The window partition key `PARTITION BY vendor, url, size_g`. -/
def partKey (r : DbRow) : String × String × ℚ := (r.vendor, r.url, r.size_g)

/-- The `GROUP BY` key of the `dedup` CTE:
`vendor,url,name,species,species_latin,grade,size_g,size_label,origin_state,currency`. -/
structure CKey where
  vendor : String
  url : String
  name : String
  species : Option String
  species_latin : Option String
  grade : Option String
  size_g : ℚ
  size_label : Option String
  origin_state : String
  currency : String
deriving DecidableEq

/-- The collapse key of a row. -/
def collapseKey (r : DbRow) : CKey :=
  ⟨r.vendor, r.url, r.name, r.species, r.species_latin, r.grade,
   r.size_g, r.size_label, r.origin_state, r.currency⟩

/-- Source: `WHERE species IS NOT NULL AND species <> ''`. -/
def speciesOk (r : DbRow) : Bool :=
  match r.species with
  | some s => decide (s ≠ "")
  | none => false

/-- The `rn = 1` rows of
`ROW_NUMBER() OVER (PARTITION BY vendor,url,size_g ORDER BY datetime(seen_at) DESC)`:
a row is kept iff its timestamp is maximal within its partition.
`ROW_NUMBER` breaks equal-timestamp ties arbitrarily and keeps exactly one
row; this embedding coincides with it whenever timestamps within a
partition are distinct, which the theorems below guarantee by hypothesis. -/
def latestOnly (f : List DbRow) : List DbRow :=
  f.filter fun r =>
    f.all fun q => decide (partKey q ≠ partKey r) || decide (q.seen_at ≤ r.seen_at)

/-- Deduplicate a key list keeping first occurrences (the groups of a
`GROUP BY`, in order of first appearance). -/
def firstKeys {α : Type} [DecidableEq α] : List α → List α → List α
  | _, [] => []
  | seen, k :: ks =>
      if k ∈ seen then firstKeys seen ks else k :: firstKeys (k :: seen) ks

/-- Fold of SQL `MIN` over a non-empty group of rationals. -/
def minQ (q0 : ℚ) (l : List ℚ) : ℚ := l.foldl min q0

end CaviarScraper

/-! ## Digest rows (the dicts consumed by bucketing and the email) -/

/-- The dict shape produced by `latest_best_by_vendor` and consumed by
`group_and_pick` / `render_text`.  Fields read through `.get` are
`Option`-typed so Python `None`-or-absent is representable. -/
structure DigestRow where
  vendor : String
  name : String
  species : Option String
  species_latin : Option String
  grade : Option String
  currency : String
  price : ℚ
  size_g : Option ℚ
  size_label : Option String
  per_g : Option ℚ
  url : String
  origin_state : Option String
deriving DecidableEq

namespace CaviarScraper

/-- The output dict of `latest_best_by_vendor` for one surviving row. -/
def toOut (r : DbRow) : DigestRow :=
  ⟨r.vendor, r.name, r.species, r.species_latin, r.grade, r.currency,
   r.price, some r.size_g, r.size_label, some r.per_g, r.url, r.origin_state⟩

/-- The `dedup` CTE's output row for one collapse-key group: every selected
column except `price`/`per_g` is part of the key, and `MIN(price)`,
`MIN(per_g)` are taken over the group. -/
def outputFor (latest : List DbRow) (k : CKey) : Option DigestRow :=
  match latest.filter fun r => decide (collapseKey r = k) with
  | [] => none
  | r :: rs =>
      some ⟨r.vendor, r.name, r.species, r.species_latin, r.grade, r.currency,
        minQ r.price (rs.map fun x => x.price), some r.size_g, r.size_label,
        some (minQ r.per_g (rs.map fun x => x.per_g)), r.url, r.origin_state⟩

/-- The key of the final Python de-duplication loop:
`(vendor, url, int(round(size_g)), round(price, 2))`. -/
def outKey (o : DigestRow) : String × String × ℤ × ℚ :=
  (o.vendor, o.url, pyRound (o.size_g.getD 0), round2 o.price)

/-- The final `seen`-set loop of `latest_best_by_vendor`. -/
def pySeenDedup (seen : List (String × String × ℤ × ℚ)) :
    List DigestRow → List DigestRow
  | [] => []
  | o :: os =>
      if outKey o ∈ seen then pySeenDedup seen os
      else o :: pySeenDedup (outKey o :: seen) os

/-- Source: `latest_best_by_vendor(conn)` over an explicit table of rows:
species filter, latest row per `(vendor,url,size_g)`, collapse each
group-key to `MIN(price)`/`MIN(per_g)`, then the Python `seen`-set
dedup. -/
def latest_best_by_vendor (rows : List DbRow) : List DigestRow :=
  let f := rows.filter speciesOk
  let latest := latestOnly f
  let dedup := (firstKeys [] (latest.map collapseKey)).filterMap (outputFor latest)
  pySeenDedup [] dedup

end CaviarScraper

namespace MainPy

/-- A row of the `prices` table as written by `store_prices` (main.py). -/
structure MDbRow where
  site : String
  name : String
  url : String
  currency : String
  price : ℚ
  size_g : ℚ
  per_g : ℚ
  size_label : Option String
  species : Option String
  species_latin : Option String
  origin_country : Option String
  origin_notes : Option String
  seen_at : Nat
deriving DecidableEq

/-- Source: `PARTITION BY site, url, size_g`. -/
def mPartKey (r : MDbRow) : String × String × ℚ := (r.site, r.url, r.size_g)

/-- The `GROUP BY` key of the `collapsed` CTE:
`site, name, size_g, size_label, currency, species, species_latin, origin_country, origin_notes`
(note: no `url`). -/
structure MKey where
  site : String
  name : String
  size_g : ℚ
  size_label : Option String
  currency : String
  species : Option String
  species_latin : Option String
  origin_country : Option String
  origin_notes : Option String
deriving DecidableEq

/-- The collapse key of a row. -/
def mCollapseKey (r : MDbRow) : MKey :=
  ⟨r.site, r.name, r.size_g, r.size_label, r.currency, r.species,
   r.species_latin, r.origin_country, r.origin_notes⟩

/-- Source: `WHERE species IS NOT NULL AND species <> ''`. -/
def mSpeciesOk (r : MDbRow) : Bool :=
  match r.species with
  | some s => decide (s ≠ "")
  | none => false

/-- Source: `rn = 1` per `(site,url,size_g)` partition, as in
`CaviarScraper.latestOnly` (same distinct-timestamp caveat). -/
def mLatestOnly (f : List MDbRow) : List MDbRow :=
  f.filter fun r =>
    f.all fun q => decide (mPartKey q ≠ mPartKey r) || decide (q.seen_at ≤ r.seen_at)

/-- SQLite's ordering on TEXT (byte order; on the ASCII urls involved this
is plain lexicographic order on characters). -/
def strLtB : List Char → List Char → Bool
  | [], [] => false
  | [], _ :: _ => true
  | _ :: _, [] => false
  | a :: as, b :: bs =>
      if a.toNat < b.toNat then true
      else if b.toNat < a.toNat then false
      else strLtB as bs

/-- SQL `MIN` over TEXT. -/
def minS (s0 : String) (l : List String) : String :=
  l.foldl (fun a b => if strLtB b.data a.data then b else a) s0

/-- The output row of `get_cheapest`. -/
structure MOut where
  site : String
  name : String
  price : ℚ
  currency : String
  size_g : ℚ
  size_label : Option String
  per_g : ℚ
  url : String
  species : Option String
  species_latin : Option String
  origin_country : Option String
  origin_notes : Option String
deriving DecidableEq

/-- The `collapsed` CTE's row for one group: `MIN(price)`, `MIN(per_g)`,
`MIN(url)` over the group, all other selected columns being part of the
group key. -/
def collapsedFor (dedup : List MDbRow) (k : MKey) : Option MOut :=
  match dedup.filter fun r => decide (mCollapseKey r = k) with
  | [] => none
  | r :: rs =>
      some ⟨r.site, r.name, CaviarScraper.minQ r.price (rs.map fun x => x.price),
        r.currency, r.size_g, r.size_label,
        CaviarScraper.minQ r.per_g (rs.map fun x => x.per_g),
        minS r.url (rs.map fun x => x.url),
        r.species, r.species_latin, r.origin_country, r.origin_notes⟩

/-- The `ORDER BY per_g ASC` comparison. -/
def perGLe (a b : MOut) : Prop := a.per_g ≤ b.per_g

instance : DecidableRel perGLe := fun a b => inferInstanceAs (Decidable (a.per_g ≤ b.per_g))

/-- Source: `get_cheapest(conn, top_n)` over an explicit table: species filter
(skipped when `require_species = 0`), latest per `(site,url,size_g)`,
collapse to cheapest per group key, order by `per_g` ascending, limit. -/
def get_cheapest (rows : List MDbRow) (require_species : Nat) (top_n : Nat) :
    List MOut :=
  let f := if require_species = 0 then rows else rows.filter mSpeciesOk
  let dedup := mLatestOnly f
  let collapsed :=
    (CaviarScraper.firstKeys [] (dedup.map mCollapseKey)).filterMap (collapsedFor dedup)
  (List.insertionSort perGLe collapsed).take top_n

end MainPy

/-! ## Ranking & bucketing -/

namespace CaviarScraper

/-- Source: `bucket_for_size(g)`: `None → "Other"`, then the `<= 50 / <= 110 /
<= 260 / else` chain (identical text in caviar_scraper.py and
email_digest.py). -/
def bucket_for_size (g : Option ℚ) : String :=
  match g with
  | none => "Other"
  | some x =>
    if x ≤ 50 then "For 2 (30–50 g)"
    else if x ≤ 110 then "For 4 (~100 g)"
    else if x ≤ 260 then "Specials (125–250 g)"
    else "Bulk (500 g+)"

end CaviarScraper

/-- Modelled from the spec: `proximity_score` is imported by
email_digest.py from caviar_scraper but is absent from the sources under
src/; §4.6 of the spec describes it as a hardcoded vendor
geographic-proximity lookup, lower = closer to the configured home region
(the recipient's US-Northeast location).  It is modelled as distance 0 for
the home state and 1 otherwise; no claim proved here depends on the
table's exact values. -/
def proximity_score (state : String) : Nat := if state = "NY" then 0 else 1

/-- Python truthiness of the fields `group_and_pick` filters on:
`r.get("size_g")` (None and 0.0 are falsy). -/
def sizeTruthy (g : Option ℚ) : Bool :=
  match g with
  | some x => decide (x ≠ 0)
  | none => false

/-- Python truthiness of `r.get("species")` (None and "" are falsy). -/
def speciesTruthy (s : Option String) : Bool :=
  match s with
  | some v => decide (v ≠ "")
  | none => false

/-- Source: `goods = [r for r in rows if r.get("size_g") and r.get("species")]`. -/
def goodsFilter (r : DigestRow) : Bool := sizeTruthy r.size_g && speciesTruthy r.species

/-- Source: `buckets.setdefault(b, []).append(r)` over an insertion-ordered dict,
as an association list. -/
def addToBucket (acc : List (String × List DigestRow)) (b : String) (r : DigestRow) :
    List (String × List DigestRow) :=
  match acc with
  | [] => [(b, [r])]
  | (k, l) :: rest =>
      if k = b then (k, l ++ [r]) :: rest else (k, l) :: addToBucket rest b r

/-- The bucket-building loop shared by both `group_and_pick` variants. -/
def buildBuckets (rows : List DigestRow) : List (String × List DigestRow) :=
  (rows.filter goodsFilter).foldl
    (fun acc r => addToBucket acc (CaviarScraper.bucket_for_size r.size_g) r) []

/-- Source: `group_and_pick(rows)` parameterized by the sort order used for the
top picks (`sorted` then `[:6]` per bucket). -/
def groupPick (rel : DigestRow → DigestRow → Prop) [DecidableRel rel]
    (rows : List DigestRow) :
    List (String × List DigestRow) × List (String × List DigestRow) :=
  let buckets := buildBuckets rows
  (buckets, buckets.map fun bi => (bi.1, (List.insertionSort rel bi.2).take 6))

namespace CaviarScraper

/-- Source: `GRADE_RANK.get((item.get("grade") or "").lower(), 99)`. -/
def gradeRankOf (it : DigestRow) : Nat :=
  (GRADE_RANK.lookup (pyLower (it.grade.getD ""))).getD 99

/-- Source: `item.get("per_g") or 1e9`. -/
def perGOr (it : DigestRow) : ℚ :=
  match it.per_g with
  | some x => if x = 0 then (10 : ℚ) ^ 9 else x
  | none => (10 : ℚ) ^ 9

/-- Source: `best_sort_key(item)` of caviar_scraper.py: `(rank, per_g, vendor)`
compared as a Python tuple. -/
def bestLe (a b : DigestRow) : Prop :=
  gradeRankOf a < gradeRankOf b ∨
    (gradeRankOf a = gradeRankOf b ∧
      (perGOr a < perGOr b ∨
        (perGOr a = perGOr b ∧ MainPy.strLtB b.vendor.data a.vendor.data = false)))

instance : DecidableRel bestLe := fun _ _ => by
  unfold bestLe; infer_instance

/-- Source: `group_and_pick(rows)` of caviar_scraper.py. -/
def group_and_pick (rows : List DigestRow) :
    List (String × List DigestRow) × List (String × List DigestRow) :=
  groupPick bestLe rows

end CaviarScraper

namespace EmailDigest

/-- Source: `item.get("origin_state") or vendor_state(item.get("vendor") or "")`. -/
def originOr (it : DigestRow) : String :=
  match it.origin_state with
  | some s => if s = "" then CaviarScraper.vendor_state it.vendor else s
  | none => CaviarScraper.vendor_state it.vendor

/-- Source: `best_sort_key(item)` of email_digest.py: `(grade_rank, per_g, prox)`
compared as a Python tuple. -/
def bestLe (a b : DigestRow) : Prop :=
  CaviarScraper.gradeRankOf a < CaviarScraper.gradeRankOf b ∨
    (CaviarScraper.gradeRankOf a = CaviarScraper.gradeRankOf b ∧
      (CaviarScraper.perGOr a < CaviarScraper.perGOr b ∨
        (CaviarScraper.perGOr a = CaviarScraper.perGOr b ∧
          proximity_score (originOr a) ≤ proximity_score (originOr b))))

instance : DecidableRel bestLe := fun _ _ => by
  unfold bestLe; infer_instance

/-- Source: `group_and_pick(rows)` of email_digest.py (same text as
caviar_scraper's, with its own `best_sort_key`). -/
def group_and_pick (rows : List DigestRow) :
    List (String × List DigestRow) × List (String × List DigestRow) :=
  groupPick bestLe rows

/-! ### render_text -/

/-- Source: `"\n".join(lines)`. -/
def joinNl : List String → String
  | [] => ""
  | [s] => s
  | s :: rest => s ++ "\n" ++ joinNl rest

/-- Source: `f"{x:.2f}"`: round half-to-even to 2 decimals, always printing two
decimal digits. -/
def fmt2 (q : ℚ) : String :=
  let k := pyRound (100 * q)
  let a := k.natAbs
  (if k < 0 then "-" else "") ++ String.mk (natChars (a / 100)) ++ "." ++
    String.mk [digCh (a % 100 / 10), digCh (a % 10)]

/-- Source: `f" ({it['grade']})" if it.get("grade") else ""`. -/
def gradeSuffix (it : DigestRow) : String :=
  match it.grade with
  | some gr => if gr = "" then "" else " (" ++ gr ++ ")"
  | none => ""

/-- One bullet line of the text digest. -/
def itemLine (it : DigestRow) : String :=
  "• " ++ it.vendor ++ " — " ++ (it.species.getD "") ++ gradeSuffix it ++ " " ++
    (it.size_label.getD "") ++ " — " ++ it.currency ++ " " ++ fmt2 it.price ++
    " ($" ++ fmt2 (it.per_g.getD 0) ++ "/g) — " ++ originOr it

/-- The lines contributed by one non-empty bucket. -/
def bucketLines (bi : String × List DigestRow) : List String :=
  if bi.2.isEmpty then [] else (bi.1 ++ ":") :: (bi.2.map itemLine) ++ [""]

/-- The explicit no-listings line of `render_text`. -/
def noListingsLine : String :=
  "No caviar listings with verified species found in this run."

/-- The trailing footer line of `render_text`. -/
def footerLine : String :=
  "Data gathered automatically from verified producers & farms. Prices may change. Edit price_sites.yaml to add/remove sellers."

/-- Source: `render_text(date_str, top_picks, buckets)` of email_digest.py: header,
one block per non-empty bucket, the no-listings line when no bucket had
items, then the footer; joined with newlines.  (`buckets` is accepted and
unused, as in the source.) -/
def render_text (date_str : String) (top_picks : List (String × List DigestRow))
    (buckets : List (String × List DigestRow)) : String :=
  let header := ["🐟 Daily Caviar Digest — " ++ date_str,
    "Cheapest verified sturgeon caviar options across trusted producers.", ""]
  let body := top_picks.foldl (fun acc bi => acc ++ bucketLines bi) []
  let any_items := top_picks.any fun bi => !bi.2.isEmpty
  let _ := buckets
  joinNl (header ++ body ++ (if any_items then [] else [noListingsLine]) ++ [footerLine])

end EmailDigest

/-! ## Remaining definitions used by the theorems -/

namespace MainPy

/-- The output projection of `get_cheapest` for a group that contains a
single row. -/
def mToOut (r : MDbRow) : MOut :=
  ⟨r.site, r.name, r.price, r.currency, r.size_g, r.size_label, r.per_g,
   r.url, r.species, r.species_latin, r.origin_country, r.origin_notes⟩

end MainPy

/-- Spec-side restatement (for the refinement of claim C8, following the
claim's words): the check flags a text iff some fixed non-sturgeon roe
term appears in it, except when the text mentions both "hackleback" and
"sturgeon". -/
def flaggedPerClaim (text : String) : Prop :=
  (∃ w ∈ MainPy.NON_STURGEON_ROE, subStr w (pyLower text) = true) ∧
    ¬(subStr "hackleback" (pyLower text) = true ∧ subStr "sturgeon" (pyLower text) = true)

/-- Invariant of the bucket association list built by `buildBuckets`:
every member of every bucket passed the goods filter and sits under its
own bucket label. -/
def entriesOK (acc : List (String × List DigestRow)) : Prop :=
  ∀ p ∈ acc, ∀ x ∈ p.2,
    goodsFilter x = true ∧ p.1 = CaviarScraper.bucket_for_size x.size_g

/-- A stored 27 g observation (below the 28 g minimum tin size named by
the spec) with a verified species, used to exercise the bucketing path. -/
def c5row27 : DigestRow :=
  ⟨"Marshallberg Farm", "Osetra Caviar 27 g tin", some "Osetra",
   some "Acipenser gueldenstaedtii", some "Royal", "USD", 81, some 27,
   some "1 oz / 27 g", some 3, "https://x.com/products/osetra-27", some "NC"⟩

/-- A well-formed digest row used to witness the bucket invariants. -/
def c10row : DigestRow :=
  ⟨"Island Creek", "Kaluga Hybrid Caviar 50 g", some "Kaluga Hybrid",
   some "Huso dauricus × Acipenser schrenckii", none, "USD", 100, some 50,
   some "1.8 oz / 50 g", some 2, "https://y.com/products/kaluga-50", some "MA"⟩

/-- A sanity-passing `scrape_product` candidate (per-gram 3). -/
def c2okRow : CaviarScraper.ScrapeRow :=
  ⟨"Marshallberg Farm", "https://x.com/products/osetra", "Osetra Caviar 30 g tin",
   "Osetra", some "Acipenser gueldenstaedtii", some "Royal", "USD", 90, 30,
   some "1.1 oz / 30 g", 3, "NC"⟩

/-- A `scrape_product_page` observation with a verified species whose
per-gram price (5000 / 30 ≈ 166.67) lies far outside the `(0, 100]`
sanity band. -/
def c2badRow : MainPy.MainRow :=
  MainPy.ld_observation "Osetra Caviar 30 g tin" 5000 "USD" 30 (some "tin")
    "https://example.com/products/osetra"
    (some "Osetra", some "Acipenser gueldenstaedtii") (none, none)

/-- Stored price rows for the latest-wins scenario: same
`(vendor, url, size_g)`, the second observed later at a lower price. -/
def c4r1 : CaviarScraper.DbRow :=
  ⟨"Marky's", "https://m.com/products/osetra", "Osetra Caviar 30 g",
   some "Osetra", some "Acipenser gueldenstaedtii", some "Royal", "USD",
   100, 30, some "1.1 oz / 30 g", 4, "FL", 5⟩

/-- The later, cheaper observation of the same offer. -/
def c4r2 : CaviarScraper.DbRow :=
  ⟨"Marky's", "https://m.com/products/osetra", "Osetra Caviar 30 g",
   some "Osetra", some "Acipenser gueldenstaedtii", some "Royal", "USD",
   90, 30, some "1.1 oz / 30 g", 3, "FL", 9⟩

/-- main.py-side rows for the latest-wins scenario. -/
def c4m1 : MainPy.MDbRow :=
  ⟨"Marky's", "Osetra Caviar 30 g", "https://m.com/products/osetra", "USD",
   100, 30, 4, some "1.1 oz / 30 g", some "Osetra",
   some "Acipenser gueldenstaedtii", some "USA", none, 5⟩

/-- The later, cheaper main.py-side observation. -/
def c4m2 : MainPy.MDbRow :=
  ⟨"Marky's", "Osetra Caviar 30 g", "https://m.com/products/osetra", "USD",
   90, 30, 3, some "1.1 oz / 30 g", some "Osetra",
   some "Acipenser gueldenstaedtii", some "USA", none, 9⟩

/-- Rows sharing `get_cheapest`'s collapse key at different urls. -/
def c4a : MainPy.MDbRow :=
  ⟨"Marky's", "Osetra Caviar 30 g", "https://m.com/products/osetra-a", "USD",
   100, 30, 4, some "1.1 oz / 30 g", some "Osetra",
   some "Acipenser gueldenstaedtii", some "USA", none, 5⟩

/-- The cheaper same-offer row at the other url. -/
def c4b : MainPy.MDbRow :=
  ⟨"Marky's", "Osetra Caviar 30 g", "https://m.com/products/osetra-b", "USD",
   90, 30, 3, some "1.1 oz / 30 g", some "Osetra",
   some "Acipenser gueldenstaedtii", some "USA", none, 5⟩

/-- The rest of the text starts with something other than a digit (the
greedy `\d+` run of the size scanner stops exactly there). -/
def headNotDigit : List Char → Prop
  | [] => True
  | c :: _ => c.isDigit = false

/-! ## General-purpose lemmas -/

theorem sdata_append (a b : String) : (a ++ b).data = a.data ++ b.data := by
  cases a; cases b; rfl

theorem hasSub_append_right (n x y : List Char) (h : hasSub n y = true) :
    hasSub n (x ++ y) = true := by
  induction x with
  | nil => simpa using h
  | cons c cs ih =>
      show hasSub n (c :: (cs ++ y)) = true
      unfold hasSub
      rcases n with _ | _
      · rfl
      · exact Bool.or_eq_true_iff.mpr (Or.inr ih)

/-! ## Claim theorems -/

/-- C1: the claim says a text carrying a "Kaluga Hybrid" marker must
extract as "Kaluga Hybrid", never plain "Kaluga".  The code refutes this:
on "Kaluga Hybrid caviar" both the hybrid rule and the plain-Kaluga rule
match, but `SPECIES_PATTERNS` lists plain Kaluga *before* the hybrid rule
(and main.py has no hybrid rule at all), so both extractors return plain
"Kaluga". -/
theorem c1_kaluga_hybrid_precedence_eval :
    rsearch CaviarScraper.kalugaHybridRx (pyLower "Kaluga Hybrid caviar").data = true ∧
    rsearch CaviarScraper.kalugaPlainRx (pyLower "Kaluga Hybrid caviar").data = true ∧
    CaviarScraper.extract_species "Kaluga Hybrid caviar" = some ("Kaluga", "Huso dauricus") ∧
    MainPy.extract_species_any "Kaluga Hybrid caviar" = some ("Kaluga", "Huso dauricus") :=
  ⟨by decide, by decide, by decide, by decide⟩

/-- C3: the claim (and the spec's word-boundary invariant) requires the
accessory check to return `False` on "Classic Osetra 30g tin".
caviar_scraper's word-bounded `ACCESSORY_RE` does; main.py's
`looks_like_accessory` matches `EXCLUDE_WORDS` as plain substrings, so
the "class" token fires inside "Classic" (and "set" inside "Osetra") and
it returns `True`. -/
theorem c3_classic_whole_word_eval :
    MainPy.looks_like_accessory "Classic Osetra 30g tin" = true ∧
    CaviarScraper.is_accessory_name_only "Classic Osetra 30g tin" = false :=
  ⟨by decide, by decide⟩

/-- C2 (amended): every candidate surviving `scrape_product`'s final
sanity filter — hence every observation it returns and stores — has
price-per-gram strictly positive and at most 100.  (main.py's
`scrape_product_page` has no such band; see the counterexample.) -/
theorem c2_sanity_band :
    ∀ (out : List CaviarScraper.ScrapeRow) (r : CaviarScraper.ScrapeRow),
      r ∈ CaviarScraper.sanity_filter out → 0 < r.per_g ∧ r.per_g ≤ 100 := by
  intro out r hr
  have h := (List.mem_filter.mp hr).2
  simp only [Bool.not_eq_true', Bool.or_eq_false_iff, decide_eq_false_iff_not,
    not_le, not_lt] at h
  exact ⟨h.1, h.2⟩

/-- C2 witness: a concrete in-band candidate survives the filter and the
band bounds follow by the theorem. -/
theorem c2_sanity_band_witness :
    c2okRow ∈ CaviarScraper.sanity_filter [c2okRow] ∧
      0 < c2okRow.per_g ∧ c2okRow.per_g ≤ 100 :=
  ⟨by decide, c2_sanity_band [c2okRow] c2okRow (by decide)⟩

/-- C2 counterexample: main.py's `scrape_product_page` builds
`per_g = price / size_g` with no sanity band, and its final guard filters
on species only, so a species-verified row with per-gram 5000/30 > 100 is
returned (and stored) — refuting the claim for `scrape_product_page`. -/
theorem c2_counterexample :
    MainPy.final_species_purge [c2badRow] = [c2badRow] ∧
      c2badRow.per_g = 500 / 3 ∧ 100 < c2badRow.per_g := by
  have hcond : (MainPy.speciesTruthyM c2badRow.species &&
      MainPy.ensure_sturgeon_species (c2badRow.species.getD "")) = true := by decide
  refine ⟨?_, ?_, ?_⟩
  · simp [MainPy.final_species_purge, MainPy.REQUIRE_SPECIES, List.filter, hcond]
  · norm_num [c2badRow, MainPy.ld_observation]
  · norm_num [c2badRow, MainPy.ld_observation]

/-- C8 (amended): main.py's `contains_non_sturgeon_or_roe` is exactly the
claimed predicate — flag iff some fixed non-sturgeon roe term occurs,
except when "hackleback" and "sturgeon" both occur.  caviar_scraper's
`mentions_non_sturgeon` has no such carve-out: it flags
"hackleback sturgeon salmon" (the word "salmon" matches) even though the
text mentions both carve-out words. -/
theorem c8_non_sturgeon_refinement :
    (∀ t : String, MainPy.contains_non_sturgeon_or_roe t = true ↔ flaggedPerClaim t) ∧
    CaviarScraper.mentions_non_sturgeon "hackleback sturgeon salmon" = true := by
  constructor
  · intro t
    unfold MainPy.contains_non_sturgeon_or_roe flaggedPerClaim
    simp only [MainPy.ALLOW_HACKLEBACK_STURGEON, Bool.true_and]
    by_cases h1 : MainPy.NON_STURGEON_ROE.any (fun w => subStr w (pyLower t)) = true
    · rw [if_pos h1]
      by_cases h2 : subStr "hackleback" (pyLower t) = true ∧ subStr "sturgeon" (pyLower t) = true
      · rw [if_pos (by simp [h2.1, h2.2])]
        simp [h2]
      · rw [if_neg (by
          intro hc
          exact h2 ⟨(Bool.and_eq_true_iff.mp hc).1, (Bool.and_eq_true_iff.mp hc).2⟩)]
        simp only [List.any_eq_true] at h1
        simpa [h2] using h1
    · rw [if_neg h1]
      simp only [List.any_eq_true] at h1
      simp [h1]
  · decide

/-- C8 counterexample: the claim asserts the carve-out for both checks
("the check returns False for such text"); `mentions_non_sturgeon`
returns `True` on a text mentioning both "hackleback" and "sturgeon". -/
theorem c8_counterexample :
    subStr "hackleback" (pyLower "hackleback sturgeon salmon") = true ∧
    subStr "sturgeon" (pyLower "hackleback sturgeon salmon") = true ∧
    CaviarScraper.mentions_non_sturgeon "hackleback sturgeon salmon" = true :=
  ⟨by decide, by decide, by decide⟩

/-- A closed-form case analysis of the species gate: a detected Beluga is
remapped (Pearl Street Caviar) or rejected; any other detected species
passes through unchanged (no other vendor mapping exists). -/
theorem scrape_product_species_cases (vendor species latin host : String) :
    CaviarScraper.scrape_product_species vendor species latin host =
      (if species = "Beluga" then
        (if vendor = "Pearl Street Caviar" then
          some ("Kaluga Hybrid", some "Huso dauricus × Acipenser schrenckii")
        else none)
      else if species = "" then none else some (species, some latin)) := by
  unfold CaviarScraper.scrape_product_species CaviarScraper.canonicalize_species
  by_cases hb : species = "Beluga"
  · by_cases hv : vendor = "Pearl Street Caviar"
    · subst hb; subst hv
      simp [CaviarScraper.ALLOW_BELUGA_DOMAINS, CaviarScraper.VENDOR_SPECIES_CANON,
        List.lookup]
    · have hbe : (vendor == "Pearl Street Caviar") = false := beq_eq_false_iff_ne.mpr hv
      subst hb
      simp [CaviarScraper.ALLOW_BELUGA_DOMAINS, CaviarScraper.VENDOR_SPECIES_CANON,
        List.lookup, hbe, hv]
  · have hbe2 : (species == "Beluga") = false := beq_eq_false_iff_ne.mpr hb
    by_cases hv : vendor = "Pearl Street Caviar"
    · subst hv
      simp [CaviarScraper.ALLOW_BELUGA_DOMAINS, CaviarScraper.VENDOR_SPECIES_CANON,
        List.lookup, hb, hbe2]
    · have hbe : (vendor == "Pearl Street Caviar") = false := beq_eq_false_iff_ne.mpr hv
      simp [CaviarScraper.ALLOW_BELUGA_DOMAINS, CaviarScraper.VENDOR_SPECIES_CANON,
        List.lookup, hb, hbe, hbe2]

/-- C9: with `ALLOW_BELUGA_DOMAINS` empty, the species kept by
`scrape_product` after `_canonicalize_species` is never "Beluga", for any
vendor, detected species and host: a detected Beluga is remapped through
`VENDOR_SPECIES_CANON` (Pearl Street Caviar → "Kaluga Hybrid") or cleared,
in which case the page is rejected with no observation. -/
theorem c9_never_beluga :
    (∀ vendor species latin host p,
        CaviarScraper.scrape_product_species vendor species latin host = some p →
        p.1 ≠ "Beluga") ∧
    (∀ latin host,
        CaviarScraper.scrape_product_species "Pearl Street Caviar" "Beluga" latin host =
          some ("Kaluga Hybrid", some "Huso dauricus × Acipenser schrenckii")) ∧
    (∀ vendor latin host, vendor ≠ "Pearl Street Caviar" →
        CaviarScraper.scrape_product_species vendor "Beluga" latin host = none) := by
  refine ⟨?p1, ?p2, ?p3⟩
  case p1 =>
    intro vendor species latin host p hp
    rw [scrape_product_species_cases] at hp
    by_cases hb : species = "Beluga"
    · rw [if_pos hb] at hp
      by_cases hv : vendor = "Pearl Street Caviar"
      · rw [if_pos hv] at hp
        have : ("Kaluga Hybrid",
            (some "Huso dauricus × Acipenser schrenckii" : Option String)) = p :=
          Option.some.inj hp
        rw [← this]
        decide
      · rw [if_neg hv] at hp
        exact absurd hp (by simp)
    · rw [if_neg hb] at hp
      by_cases he : species = ""
      · rw [if_pos he] at hp
        exact absurd hp (by simp)
      · rw [if_neg he] at hp
        have : (species, (some latin : Option String)) = p := Option.some.inj hp
        rw [← this]
        exact hb
  case p2 =>
    intro latin host
    rw [scrape_product_species_cases]
    simp
  case p3 =>
    intro vendor latin host hv
    rw [scrape_product_species_cases]
    simp [hv]

/-- C9 witness: Pearl Street Caviar's marketed Beluga is remapped to
Kaluga Hybrid, which the theorem certifies is not Beluga. -/
theorem c9_never_beluga_witness :
    CaviarScraper.scrape_product_species "Pearl Street Caviar" "Beluga" "Huso huso"
        "pearlstreetcaviar.com" =
      some ("Kaluga Hybrid", some "Huso dauricus × Acipenser schrenckii") ∧
    ("Kaluga Hybrid", (some "Huso dauricus × Acipenser schrenckii" : Option String)).1 ≠
      "Beluga" :=
  ⟨c9_never_beluga.2.1 "Huso huso" "pearlstreetcaviar.com",
   c9_never_beluga.1 "Pearl Street Caviar" "Beluga" "Huso huso" "pearlstreetcaviar.com" _
     (by decide)⟩

theorem entriesOK_nil : entriesOK [] := by
  intro p hp
  cases hp

theorem entriesOK_tail {hd : String × List DigestRow} {tl : List (String × List DigestRow)}
    (h : entriesOK (hd :: tl)) : entriesOK tl :=
  fun p hp => h p (List.mem_cons_of_mem hd hp)

theorem entriesOK_add {acc : List (String × List DigestRow)} {b : String} {r : DigestRow}
    (ha : entriesOK acc) (hr : goodsFilter r = true)
    (hb : b = CaviarScraper.bucket_for_size r.size_g) :
    entriesOK (addToBucket acc b r) := by
  induction acc with
  | nil =>
      intro p hp x hx
      simp only [addToBucket, List.mem_singleton] at hp
      subst hp
      simp only [List.mem_singleton] at hx
      subst hx
      exact ⟨hr, hb⟩
  | cons hd tl ih =>
      obtain ⟨k, l⟩ := hd
      show entriesOK (addToBucket ((k, l) :: tl) b r)
      unfold addToBucket
      by_cases hk : k = b
      · rw [if_pos hk]
        intro p hp x hx
        rcases List.mem_cons.mp hp with hone | htl
        · subst hone
          rcases List.mem_append.mp hx with hl | hr1
          · exact ha (k, l) (List.mem_cons_self _ _) x hl
          · simp only [List.mem_singleton] at hr1
            subst hr1
            exact ⟨hr, by rw [hk, hb]⟩
        · exact ha p (List.mem_cons_of_mem _ htl) x hx
      · rw [if_neg hk]
        intro p hp x hx
        rcases List.mem_cons.mp hp with hone | htl
        · subst hone
          exact ha (k, l) (List.mem_cons_self _ _) x hx
        · exact ih (entriesOK_tail ha) p htl x hx

theorem entriesOK_fold (l : List DigestRow) (acc : List (String × List DigestRow))
    (hl : ∀ r ∈ l, goodsFilter r = true) (ha : entriesOK acc) :
    entriesOK (l.foldl
      (fun a r => addToBucket a (CaviarScraper.bucket_for_size r.size_g) r) acc) := by
  induction l generalizing acc with
  | nil => exact ha
  | cons r l ih =>
      simp only [List.foldl_cons]
      exact ih _ (fun x hx => hl x (List.mem_cons_of_mem r hx))
        (entriesOK_add ha (hl r (List.mem_cons_self r l)) rfl)

theorem entriesOK_buildBuckets (rows : List DigestRow) : entriesOK (buildBuckets rows) :=
  entriesOK_fold _ [] (fun r hr => (List.mem_filter.mp hr).2) entriesOK_nil

theorem groupPick_fst_mem (rel : DigestRow → DigestRow → Prop) [DecidableRel rel]
    (rows : List DigestRow) (b : String) (items : List DigestRow) (x : DigestRow)
    (hm : (b, items) ∈ (groupPick rel rows).1) (hx : x ∈ items) :
    goodsFilter x = true ∧ b = CaviarScraper.bucket_for_size x.size_g := by
  have hm' : (b, items) ∈ buildBuckets rows := hm
  exact entriesOK_buildBuckets rows (b, items) hm' x hx

theorem groupPick_snd_mem (rel : DigestRow → DigestRow → Prop) [DecidableRel rel]
    (rows : List DigestRow) (b : String) (items : List DigestRow) (x : DigestRow)
    (hm : (b, items) ∈ (groupPick rel rows).2) (hx : x ∈ items) :
    goodsFilter x = true ∧ b = CaviarScraper.bucket_for_size x.size_g := by
  have hm' : (b, items) ∈ (buildBuckets rows).map
      (fun bi => (bi.1, (List.insertionSort rel bi.2).take 6)) := hm
  obtain ⟨bi, hbi, heq⟩ := List.mem_map.mp hm'
  have hb : bi.1 = b := congrArg Prod.fst heq
  have hi : (List.insertionSort rel bi.2).take 6 = items := congrArg Prod.snd heq
  have hx2 : x ∈ bi.2 := by
    rw [← hi] at hx
    exact (List.mem_insertionSort rel).mp (List.mem_of_mem_take hx)
  have := entriesOK_buildBuckets rows bi hbi x hx2
  rw [← hb]
  exact this

theorem bucket_some_ne_other (x : ℚ) :
    CaviarScraper.bucket_for_size (some x) ≠ "Other" := by
  simp only [CaviarScraper.bucket_for_size]
  split_ifs <;> decide

/-- C10: every entry of both outputs of `group_and_pick` (buckets and top
picks) has a truthy size (non-null, non-zero) and a truthy species
(non-empty), and its bucket label is never "Other". -/
theorem c10_no_other_bucket :
    ∀ (rows : List DigestRow) (b : String) (items : List DigestRow) (r : DigestRow),
      ((b, items) ∈ (EmailDigest.group_and_pick rows).1 ∨
        (b, items) ∈ (EmailDigest.group_and_pick rows).2) → r ∈ items →
      b ≠ "Other" ∧ sizeTruthy r.size_g = true ∧ speciesTruthy r.species = true := by
  intro rows b items r hm hr
  have key : goodsFilter r = true ∧ b = CaviarScraper.bucket_for_size r.size_g := by
    rcases hm with h1 | h2
    · exact groupPick_fst_mem EmailDigest.bestLe rows b items r h1 hr
    · exact groupPick_snd_mem EmailDigest.bestLe rows b items r h2 hr
  obtain ⟨hgood, hb⟩ := key
  have hsz : sizeTruthy r.size_g = true := (Bool.and_eq_true_iff.mp hgood).1
  have hsp : speciesTruthy r.species = true := (Bool.and_eq_true_iff.mp hgood).2
  refine ⟨?_, hsz, hsp⟩
  cases hy : r.size_g with
  | none => rw [hy] at hsz; cases hsz
  | some y =>
      rw [hb, hy]
      exact bucket_some_ne_other y

/-- C10 witness: a concrete well-formed row lands in the For-2 bucket of
both outputs, and the theorem yields the invariants for it. -/
theorem c10_no_other_bucket_witness :
    "For 2 (30–50 g)" ≠ "Other" ∧ sizeTruthy c10row.size_g = true ∧
      speciesTruthy c10row.species = true :=
  c10_no_other_bucket [c10row] "For 2 (30–50 g)" [c10row] c10row
    (Or.inl (by decide)) (by decide)

/-- C5 (amended): the bucket thresholds are exactly as claimed
(≤ 50 → For-2, ≤ 110 → For-4, ≤ 260 → Specials, else Bulk; a null size
maps to "Other" and rows with null/zero size are excluded from
`group_and_pick`), but grams below the 28 g minimum tin size are *not*
excluded: a 27 g row is ranked in the For-2 bucket. -/
theorem c5_bucket_thresholds :
    (∀ g : ℚ, g ≤ 50 →
        CaviarScraper.bucket_for_size (some g) = "For 2 (30–50 g)") ∧
    (∀ g : ℚ, 50 < g → g ≤ 110 →
        CaviarScraper.bucket_for_size (some g) = "For 4 (~100 g)") ∧
    (∀ g : ℚ, 110 < g → g ≤ 260 →
        CaviarScraper.bucket_for_size (some g) = "Specials (125–250 g)") ∧
    (∀ g : ℚ, 260 < g →
        CaviarScraper.bucket_for_size (some g) = "Bulk (500 g+)") ∧
    CaviarScraper.bucket_for_size none = "Other" ∧
    (∀ (rows : List DigestRow) (b : String) (items : List DigestRow) (r : DigestRow),
        (b, items) ∈ (CaviarScraper.group_and_pick rows).1 → r ∈ items →
        r.size_g ≠ none ∧ r.size_g ≠ some 0) ∧
    (CaviarScraper.group_and_pick [c5row27]).1 = [("For 2 (30–50 g)", [c5row27])] := by
  refine ⟨?t1, ?t2, ?t3, ?t4, rfl, ?tnull, ?t27⟩
  case t1 =>
    intro g h
    simp [CaviarScraper.bucket_for_size, h]
  case t2 =>
    intro g h1 h2
    simp [CaviarScraper.bucket_for_size, not_le.mpr h1, h2]
  case t3 =>
    intro g h1 h2
    have h50 : ¬ g ≤ 50 := not_le.mpr (lt_trans (show (50 : ℚ) < 110 by norm_num) h1)
    have h110 : ¬ g ≤ 110 := not_le.mpr h1
    simp [CaviarScraper.bucket_for_size, h50, h110, h2]
  case t4 =>
    intro g h1
    have h50 : ¬ g ≤ 50 := not_le.mpr (lt_trans (show (50 : ℚ) < 260 by norm_num) h1)
    have h110 : ¬ g ≤ 110 := not_le.mpr (lt_trans (show (110 : ℚ) < 260 by norm_num) h1)
    have h260 : ¬ g ≤ 260 := not_le.mpr h1
    simp [CaviarScraper.bucket_for_size, h50, h110, h260]
  case tnull =>
    intro rows b items r hm hr
    have key := groupPick_fst_mem CaviarScraper.bestLe rows b items r hm hr
    have hsz : sizeTruthy r.size_g = true := (Bool.and_eq_true_iff.mp key.1).1
    cases hy : r.size_g with
    | none => rw [hy] at hsz; cases hsz
    | some y =>
        rw [hy] at hsz
        have hy0 : y ≠ 0 := by simpa [sizeTruthy] using hsz
        exact ⟨by simp, by simp [hy0]⟩
  case t27 => decide

/-- C5 witness: the thresholds evaluated at the spec's boundary points. -/
theorem c5_bucket_thresholds_witness :
    CaviarScraper.bucket_for_size (some 50) = "For 2 (30–50 g)" ∧
    CaviarScraper.bucket_for_size (some 51) = "For 4 (~100 g)" ∧
    CaviarScraper.bucket_for_size (some 110) = "For 4 (~100 g)" ∧
    CaviarScraper.bucket_for_size (some 111) = "Specials (125–250 g)" ∧
    CaviarScraper.bucket_for_size (some 260) = "Specials (125–250 g)" ∧
    CaviarScraper.bucket_for_size (some 261) = "Bulk (500 g+)" :=
  ⟨c5_bucket_thresholds.1 50 (by norm_num),
   c5_bucket_thresholds.2.1 51 (by norm_num) (by norm_num),
   c5_bucket_thresholds.2.1 110 (by norm_num) (by norm_num),
   c5_bucket_thresholds.2.2.1 111 (by norm_num) (by norm_num),
   c5_bucket_thresholds.2.2.1 260 (by norm_num) (by norm_num),
   c5_bucket_thresholds.2.2.2.1 261 (by norm_num)⟩

/-- C5 counterexample: the claim says a 27 g size (below the 28 g minimum
tin size) is excluded from ranking entirely rather than placed in a
bucket; in fact `group_and_pick` places the 27 g row in the For-2
bucket. -/
theorem c5_counterexample :
    c5row27.size_g = some 27 ∧
    (CaviarScraper.group_and_pick [c5row27]).1 = [("For 2 (30–50 g)", [c5row27])] :=
  ⟨rfl, by decide⟩

theorem latestOnly_pair (r1 r2 : CaviarScraper.DbRow)
    (hpk : CaviarScraper.partKey r1 = CaviarScraper.partKey r2)
    (hlt : r1.seen_at < r2.seen_at) :
    CaviarScraper.latestOnly [r1, r2] = [r2] := by
  have h21 : ¬ (r2.seen_at ≤ r1.seen_at) := not_le.mpr hlt
  have h12 : r1.seen_at ≤ r2.seen_at := le_of_lt hlt
  simp [CaviarScraper.latestOnly, hpk, h21, h12]

theorem dedup_single (r : CaviarScraper.DbRow) :
    (CaviarScraper.firstKeys [] ([r].map CaviarScraper.collapseKey)).filterMap
      (CaviarScraper.outputFor [r]) = [CaviarScraper.toOut r] := by
  simp [CaviarScraper.firstKeys, CaviarScraper.outputFor, CaviarScraper.toOut,
    CaviarScraper.minQ, List.filterMap, List.filter]

theorem pySeenDedup_single (o : DigestRow) : CaviarScraper.pySeenDedup [] [o] = [o] := by
  simp [CaviarScraper.pySeenDedup]

theorem mLatestOnly_pair (r1 r2 : MainPy.MDbRow)
    (hpk : MainPy.mPartKey r1 = MainPy.mPartKey r2)
    (hlt : r1.seen_at < r2.seen_at) :
    MainPy.mLatestOnly [r1, r2] = [r2] := by
  have h21 : ¬ (r2.seen_at ≤ r1.seen_at) := not_le.mpr hlt
  have h12 : r1.seen_at ≤ r2.seen_at := le_of_lt hlt
  simp [MainPy.mLatestOnly, hpk, h21, h12]

theorem mLatestOnly_sep (a b : MainPy.MDbRow)
    (hpk : MainPy.mPartKey a ≠ MainPy.mPartKey b) :
    MainPy.mLatestOnly [a, b] = [a, b] := by
  have hpk' : MainPy.mPartKey b ≠ MainPy.mPartKey a := Ne.symm hpk
  simp [MainPy.mLatestOnly, hpk, hpk']

theorem mCollapsed_single (r : MainPy.MDbRow) :
    (CaviarScraper.firstKeys [] ([r].map MainPy.mCollapseKey)).filterMap
      (MainPy.collapsedFor [r]) = [MainPy.mToOut r] := by
  simp [CaviarScraper.firstKeys, MainPy.collapsedFor, MainPy.mToOut,
    CaviarScraper.minQ, MainPy.minS, List.filterMap, List.filter]

/-- C4: (a) for two stored rows with the same `(vendor, url, size_g)` key,
distinct timestamps and distinct prices, `latest_best_by_vendor` returns
exactly the later row; (b) likewise for `get_cheapest` on the
`(site, url, size_g)` key; (c) among surviving latest rows that share
`get_cheapest`'s collapse key, the collapsed output keeps the single
cheapest price (and cheapest per-gram and smallest url, per the SQL
`MIN`s). -/
theorem c4_latest_wins_then_cheapest :
    (∀ r1 r2 : CaviarScraper.DbRow,
        r1.vendor = r2.vendor → r1.url = r2.url → r1.size_g = r2.size_g →
        r1.seen_at < r2.seen_at → r1.price ≠ r2.price →
        CaviarScraper.speciesOk r1 = true → CaviarScraper.speciesOk r2 = true →
        CaviarScraper.latest_best_by_vendor [r1, r2] = [CaviarScraper.toOut r2]) ∧
    (∀ m1 m2 : MainPy.MDbRow,
        m1.site = m2.site → m1.url = m2.url → m1.size_g = m2.size_g →
        m1.seen_at < m2.seen_at → m1.price ≠ m2.price →
        MainPy.mSpeciesOk m1 = true → MainPy.mSpeciesOk m2 = true →
        MainPy.get_cheapest [m1, m2] 1 12 = [MainPy.mToOut m2]) ∧
    (∀ a b : MainPy.MDbRow,
        MainPy.mCollapseKey a = MainPy.mCollapseKey b → a.url ≠ b.url →
        MainPy.mSpeciesOk a = true → MainPy.mSpeciesOk b = true →
        MainPy.get_cheapest [a, b] 1 12 =
          [⟨a.site, a.name, min a.price b.price, a.currency, a.size_g, a.size_label,
            min a.per_g b.per_g,
            if MainPy.strLtB b.url.data a.url.data then b.url else a.url,
            a.species, a.species_latin, a.origin_country, a.origin_notes⟩]) := by
  refine ⟨?p1, ?p2, ?p3⟩
  case p1 =>
    intro r1 r2 hv hu hs hlt hp h1 h2
    have hpk : CaviarScraper.partKey r1 = CaviarScraper.partKey r2 := by
      simp [CaviarScraper.partKey, hv, hu, hs]
    simp only [CaviarScraper.latest_best_by_vendor]
    rw [show List.filter CaviarScraper.speciesOk [r1, r2] = [r1, r2] by
      simp [List.filter, h1, h2]]
    rw [latestOnly_pair r1 r2 hpk hlt, dedup_single r2]
    exact pySeenDedup_single _
  case p2 =>
    intro m1 m2 hv hu hs hlt hp h1 h2
    have hpk : MainPy.mPartKey m1 = MainPy.mPartKey m2 := by
      simp [MainPy.mPartKey, hv, hu, hs]
    simp only [MainPy.get_cheapest]
    rw [if_neg (by norm_num)]
    rw [show List.filter MainPy.mSpeciesOk [m1, m2] = [m1, m2] by
      simp [List.filter, h1, h2]]
    rw [mLatestOnly_pair m1 m2 hpk hlt, mCollapsed_single m2]
    simp [List.insertionSort, List.orderedInsert]
  case p3 =>
    intro a b hk hu h1 h2
    have hpk : MainPy.mPartKey a ≠ MainPy.mPartKey b := by
      simp only [MainPy.mPartKey]
      intro hcontra
      exact hu (congrArg (fun t => t.2.1) hcontra)
    simp only [MainPy.get_cheapest]
    rw [if_neg (by norm_num)]
    rw [show List.filter MainPy.mSpeciesOk [a, b] = [a, b] by
      simp [List.filter, h1, h2]]
    rw [mLatestOnly_sep a b hpk]
    rw [show List.map MainPy.mCollapseKey [a, b] =
      [MainPy.mCollapseKey a, MainPy.mCollapseKey a] by simp [hk]]
    rw [show CaviarScraper.firstKeys []
        [MainPy.mCollapseKey a, MainPy.mCollapseKey a] = [MainPy.mCollapseKey a] by
      simp [CaviarScraper.firstKeys]]
    have hfa : (List.filter (fun r =>
        decide (MainPy.mCollapseKey r = MainPy.mCollapseKey a)) [a, b]) = [a, b] := by
      simp [List.filter, hk.symm]
    simp only [List.filterMap, MainPy.collapsedFor, hfa]
    simp [CaviarScraper.minQ, MainPy.minS, List.insertionSort, List.orderedInsert]

/-- C4 witness: the three query scenarios at concrete rows. -/
theorem c4_latest_wins_then_cheapest_witness :
    CaviarScraper.latest_best_by_vendor [c4r1, c4r2] = [CaviarScraper.toOut c4r2] ∧
    MainPy.get_cheapest [c4m1, c4m2] 1 12 = [MainPy.mToOut c4m2] ∧
    MainPy.get_cheapest [c4a, c4b] 1 12 =
      [⟨c4a.site, c4a.name, min c4a.price c4b.price, c4a.currency, c4a.size_g,
        c4a.size_label, min c4a.per_g c4b.per_g,
        if MainPy.strLtB c4b.url.data c4a.url.data then c4b.url else c4a.url,
        c4a.species, c4a.species_latin, c4a.origin_country, c4a.origin_notes⟩] :=
  ⟨c4_latest_wins_then_cheapest.1 c4r1 c4r2 rfl rfl rfl (by decide) (by decide)
      (by decide) (by decide),
   c4_latest_wins_then_cheapest.2.1 c4m1 c4m2 rfl rfl rfl (by decide) (by decide)
      (by decide) (by decide),
   c4_latest_wins_then_cheapest.2.2 c4a c4b rfl (by decide) (by decide) (by decide)⟩

/-- C7: a run that collected zero observations still renders a digest whose
text body carries the explicit no-listings message, whatever the date
string — the pure digest pipeline applies no emptiness guard. -/
theorem c7_empty_run_message :
    ∀ date_str : String,
      subStr EmailDigest.noListingsLine
        (EmailDigest.render_text date_str
          (EmailDigest.group_and_pick []).2 (EmailDigest.group_and_pick []).1) = true := by
  intro d
  have key : EmailDigest.render_text d
      (EmailDigest.group_and_pick []).2 (EmailDigest.group_and_pick []).1
      = ("🐟 Daily Caviar Digest — " ++ d) ++ "\n" ++
        EmailDigest.joinNl
          ["Cheapest verified sturgeon caviar options across trusted producers.", "",
           EmailDigest.noListingsLine, EmailDigest.footerLine] := rfl
  rw [key]
  unfold subStr
  rw [sdata_append]
  exact hasSub_append_right _ _ _ (by decide)

/-! ## Numeral round-trip lemmas (for C6) -/

theorem digCh_isDigit : ∀ d < 10, (digCh d).isDigit = true := by decide

theorem digCh_val : ∀ d < 10, (digCh d).toNat - 48 = d := by decide

theorem natChars_spec (n : Nat) :
    natChars n ≠ [] ∧ (∀ c ∈ natChars n, c.isDigit = true) := by
  induction n using Nat.strong_induction_on with
  | _ n ih =>
    by_cases h : n < 10
    · unfold natChars
      rw [dif_pos h]
      refine ⟨by simp, ?_⟩
      intro c hc
      rw [List.mem_singleton] at hc
      rw [hc]
      exact digCh_isDigit n h
    · unfold natChars
      rw [dif_neg h]
      refine ⟨by simp, ?_⟩
      intro c hc
      rcases List.mem_append.mp hc with hl | hr
      · exact (ih (n / 10) (Nat.div_lt_self (by omega) (by norm_num))).2 c hl
      · rw [List.mem_singleton] at hr
        rw [hr]
        exact digCh_isDigit (n % 10) (Nat.mod_lt n (by omega))

theorem foldl_digits_append (ds : List Char) (rest : List Char) (acc : Nat)
    (hds : ∀ c ∈ ds, c.isDigit = true) (hrest : headNotDigit rest) :
    runDigits acc (ds ++ rest) =
      (ds.foldl (fun a c => 10 * a + (c.toNat - 48)) acc, rest) := by
  induction ds generalizing acc with
  | nil =>
      cases rest with
      | nil => rfl
      | cons c t =>
          show runDigits acc (c :: t) = (acc, c :: t)
          unfold runDigits
          have hc : c.isDigit = false := hrest
          rw [if_neg (by simp [hc])]
  | cons d ds ih =>
      show runDigits acc (d :: (ds ++ rest)) = _
      unfold runDigits
      rw [if_pos (hds d (List.mem_cons_self d ds))]
      rw [List.foldl_cons]
      exact ih _ (fun c hc => hds c (List.mem_cons_of_mem d hc))

theorem foldl_natChars (n : Nat) :
    ∀ acc, (natChars n).foldl (fun a c => 10 * a + (c.toNat - 48)) acc
      = acc * 10 ^ (natChars n).length + n := by
  induction n using Nat.strong_induction_on with
  | _ n ih =>
    intro acc
    by_cases h : n < 10
    · unfold natChars
      rw [dif_pos h]
      simp only [List.foldl_cons, List.foldl_nil, List.length_singleton, pow_one]
      rw [digCh_val n h]
      omega
    · unfold natChars
      rw [dif_neg h]
      rw [List.foldl_append]
      rw [ih (n / 10) (Nat.div_lt_self (by omega) (by norm_num)) acc]
      simp only [List.foldl_cons, List.foldl_nil, List.length_append,
        List.length_singleton]
      rw [digCh_val (n % 10) (Nat.mod_lt n (by omega))]
      rw [pow_succ, ← Nat.mul_assoc]
      generalize acc * 10 ^ (natChars (n / 10)).length = m
      omega

theorem runDigits_natChars (n : Nat) (rest : List Char) (hrest : headNotDigit rest) :
    runDigits 0 (natChars n ++ rest) = (n, rest) := by
  rw [foldl_digits_append (natChars n) rest 0 (natChars_spec n).2 hrest,
    foldl_natChars]
  simp

theorem runDigitsLen_one (d : Nat) (hd : d < 10) (rest : List Char)
    (hrest : headNotDigit rest) :
    runDigitsLen 0 0 (digCh d :: rest) = (d, 1, rest) := by
  unfold runDigitsLen
  rw [if_pos (digCh_isDigit d hd)]
  rw [digCh_val d hd]
  norm_num
  cases rest with
  | nil => rfl
  | cons c t =>
      unfold runDigitsLen
      have hc : c.isDigit = false := hrest
      rw [if_neg (by simp [hc])]

theorem tryNum_int (n : Nat) (tail : List Char) :
    tryNum (natChars n ++ (' ' :: 'o' :: 'z' :: ' ' :: tail)) =
      some ((n : ℚ) * OZ_G) := by
  obtain ⟨c, cs, hcons⟩ := List.exists_cons_of_ne_nil (natChars_spec n).1
  have hdig : c.isDigit = true :=
    (natChars_spec n).2 c (by rw [hcons]; exact List.mem_cons_self c cs)
  have hrun : runDigits 0 (natChars n ++ (' ' :: 'o' :: 'z' :: ' ' :: tail))
      = (n, ' ' :: 'o' :: 'z' :: ' ' :: tail) :=
    runDigits_natChars n _ (by show (' ').isDigit = false; decide)
  rw [hcons, List.cons_append] at hrun ⊢
  unfold tryNum
  simp only [hdig, if_true]
  rw [hrun]
  rfl

theorem tryNum_frac (n d : Nat) (hd : d < 10) (tail : List Char) :
    tryNum (natChars n ++ ('.' :: digCh d :: ' ' :: 'o' :: 'z' :: ' ' :: tail)) =
      some (((n : ℚ) + (d : ℚ) / 10) * OZ_G) := by
  obtain ⟨c, cs, hcons⟩ := List.exists_cons_of_ne_nil (natChars_spec n).1
  have hdig : c.isDigit = true :=
    (natChars_spec n).2 c (by rw [hcons]; exact List.mem_cons_self c cs)
  have hrun : runDigits 0
      (natChars n ++ ('.' :: digCh d :: ' ' :: 'o' :: 'z' :: ' ' :: tail))
      = (n, '.' :: digCh d :: ' ' :: 'o' :: 'z' :: ' ' :: tail) :=
    runDigits_natChars n _ (by show ('.').isDigit = false; decide)
  have hfrac : runDigitsLen 0 0 (digCh d :: ' ' :: 'o' :: 'z' :: ' ' :: tail)
      = (d, 1, ' ' :: 'o' :: 'z' :: ' ' :: tail) :=
    runDigitsLen_one d hd _ (by show (' ').isDigit = false; decide)
  rw [hcons, List.cons_append] at hrun ⊢
  unfold tryNum
  simp only [hdig, if_true]
  rw [hrun]
  simp only [digCh_isDigit d hd, if_true]
  rw [hfrac]
  norm_num
  rfl

theorem scanSize_of_tryNum (s : List Char) (v : ℚ) (hne : s ≠ [])
    (h : tryNum s = some v) : scanSize s = some v := by
  cases s with
  | nil => exact absurd rfl hne
  | cons c t =>
      unfold scanSize
      rw [h]

theorem pyRound_abs (q : ℚ) : |(pyRound q : ℚ) - q| ≤ 1 / 2 := by
  unfold pyRound
  have h0 : (0 : ℚ) ≤ q - ⌊q⌋ := by
    have := Int.floor_le q
    linarith
  have h1 : q - ⌊q⌋ < 1 := by
    have := Int.lt_floor_add_one q
    linarith
  split_ifs with hc1 hc2 hc3
  · rw [abs_le]
    constructor <;> linarith
  · push_cast
    rw [abs_le]
    constructor <;> linarith
  · rw [abs_le]
    constructor <;> linarith
  · push_cast
    rw [abs_le]
    constructor <;> linarith

theorem pyRound_nonneg {q : ℚ} (h : 0 ≤ q) : 0 ≤ pyRound q := by
  unfold pyRound
  have hf : 0 ≤ ⌊q⌋ := Int.floor_nonneg.mpr h
  split_ifs <;> omega

theorem labels_eq (g : ℚ) :
    MainPy.grams_to_label_both g none = CaviarScraper.size_label_both g := by
  unfold MainPy.grams_to_label_both CaviarScraper.size_label_both
  by_cases h : g = 0
  · rw [if_pos h, if_pos h]
  · rw [if_neg h, if_neg h]
    simp only [List.append_nil, List.append_assoc]
    rfl

theorem c6_bound (w z : ℚ) (h : |w - z| ≤ 1 / 20) :
    |w * OZ_G - z * OZ_G| ≤ 71 / 50 := by
  have h1 : w * OZ_G - z * OZ_G = (w - z) * OZ_G := by ring
  rw [h1, abs_mul, abs_of_pos (show (0 : ℚ) < OZ_G by norm_num [OZ_G])]
  have h2 : |w - z| * OZ_G ≤ (1 / 20) * OZ_G :=
    mul_le_mul_of_nonneg_right h (by norm_num [OZ_G])
  have h3 : (1 / 20 : ℚ) * OZ_G ≤ 71 / 50 := by norm_num [OZ_G]
  linarith

/-- C6 (amended): for every positive gram value, re-parsing the rendered
size label recovers the displayed *ounce* figure — `parse_size` takes the
first number-unit token, which is the leading ounce part — so the
round-trip error is bounded by the 0.05 oz display rounding, i.e. by
1.42 g, not by the claimed 0.5 g. -/
theorem c6_label_roundtrip_amended :
    ∀ g : ℚ, 0 < g →
      ∃ v : ℚ,
        CaviarScraper.parse_size ((CaviarScraper.size_label_both g).getD "") = some v ∧
        MainPy.parse_size_g ((MainPy.grams_to_label_both g none).getD "") = some v ∧
        |v - g| ≤ 71 / 50 := by
  intro g hg
  have hOZpos : (0 : ℚ) < OZ_G := by norm_num [OZ_G]
  have hozpos : 0 < g / OZ_G := div_pos hg hOZpos
  have hgoz : g = g / OZ_G * OZ_G := (div_mul_cancel₀ g (ne_of_gt hOZpos)).symm
  have main : ∃ w : ℚ, |w - g / OZ_G| ≤ 1 / 20 ∧
      scanSize (CaviarScraper.ozChars (g / OZ_G) ++
        (' ' :: 'o' :: 'z' :: ' ' ::
          ('/' :: ' ' :: (intChars (pyRound g) ++ (" g").data)))) = some (w * OZ_G) := by
    by_cases hA : |g / OZ_G - (pyRound (g / OZ_G) : ℚ)| < 1 / 20
    · have hnn : 0 ≤ pyRound (g / OZ_G) := pyRound_nonneg (le_of_lt hozpos)
      refine ⟨((pyRound (g / OZ_G)).toNat : ℚ), ?_, ?_⟩
      · have hc : (((pyRound (g / OZ_G)).toNat : ℕ) : ℚ) =
            ((pyRound (g / OZ_G) : ℤ) : ℚ) := by
          exact_mod_cast congrArg (fun z : ℤ => (z : ℚ)) (Int.toNat_of_nonneg hnn)
        rw [hc, abs_sub_comm]
        exact le_of_lt hA
      · have hoch : CaviarScraper.ozChars (g / OZ_G) =
            natChars (pyRound (g / OZ_G)).toNat := by
          unfold CaviarScraper.ozChars intChars
          rw [if_pos hA, if_neg (not_lt.mpr hnn)]
        rw [hoch]
        exact scanSize_of_tryNum _ _ (by simp) (tryNum_int _ _)
    · set k : ℤ := pyRound (10 * (g / OZ_G)) with hkdef
      have hknn : 0 ≤ k := pyRound_nonneg (by positivity)
      set a : ℕ := k.natAbs with hadef
      have hkabs : ((a : ℕ) : ℚ) = ((k : ℤ) : ℚ) := by
        rw [hadef, Int.cast_natAbs]
        exact congrArg (fun z : ℤ => (z : ℚ)) (abs_of_nonneg hknn)
      refine ⟨(a : ℚ) / 10, ?_, ?_⟩
      · rw [hkabs]
        have hb := pyRound_abs (10 * (g / OZ_G))
        rw [← hkdef] at hb
        have he : ((k : ℤ) : ℚ) / 10 - g / OZ_G =
            (((k : ℤ) : ℚ) - 10 * (g / OZ_G)) / 10 := by ring
        rw [he, abs_div, abs_of_pos (show (0 : ℚ) < 10 by norm_num)]
        linarith
      · have hoch : CaviarScraper.ozChars (g / OZ_G) = tenthChars k := by
          unfold CaviarScraper.ozChars
          rw [if_neg hA]
        rw [hoch]
        unfold tenthChars
        rw [if_neg (not_lt.mpr hknn), ← hadef]
        by_cases h10 : a % 10 = 0
        · rw [if_pos h10]
          have hdvd : 10 ∣ a := Nat.dvd_of_mod_eq_zero h10
          have hdiv : ((a / 10 : ℕ) : ℚ) = (a : ℚ) / 10 := by
            rw [eq_div_iff (show (10 : ℚ) ≠ 0 by norm_num)]
            exact_mod_cast Nat.div_mul_cancel hdvd
          rw [← hdiv]
          exact scanSize_of_tryNum _ _ (by simp) (tryNum_int _ _)
        · rw [if_neg h10]
          have hd : a % 10 < 10 := Nat.mod_lt _ (by norm_num)
          have hnm : 10 * (a / 10) + a % 10 = a := Nat.div_add_mod a 10
          have hval : ((a / 10 : ℕ) : ℚ) + ((a % 10 : ℕ) : ℚ) / 10 = (a : ℚ) / 10 := by
            have hc : (10 : ℚ) * ((a / 10 : ℕ) : ℚ) + ((a % 10 : ℕ) : ℚ) = (a : ℚ) := by
              exact_mod_cast hnm
            field_simp
            linarith
          rw [← hval]
          rw [List.append_assoc]
          exact scanSize_of_tryNum _ _ (by simp) (tryNum_frac (a / 10) (a % 10) hd _)
  obtain ⟨w, hw, hscan⟩ := main
  have hparse : CaviarScraper.parse_size ((CaviarScraper.size_label_both g).getD "") =
      some (w * OZ_G) := by
    have hlabel : (CaviarScraper.size_label_both g).getD "" =
        String.mk (CaviarScraper.ozChars (g / OZ_G) ++
          (" oz / ").data ++ intChars (pyRound g) ++ (" g").data) := by
      unfold CaviarScraper.size_label_both
      rw [if_neg (ne_of_gt hg)]
      rfl
    rw [hlabel]
    show scanSize (CaviarScraper.ozChars (g / OZ_G) ++
        (" oz / ").data ++ intChars (pyRound g) ++ (" g").data) = some (w * OZ_G)
    rw [show CaviarScraper.ozChars (g / OZ_G) ++
          (" oz / ").data ++ intChars (pyRound g) ++ (" g").data =
        CaviarScraper.ozChars (g / OZ_G) ++
          (' ' :: 'o' :: 'z' :: ' ' ::
            ('/' :: ' ' :: (intChars (pyRound g) ++ (" g").data))) from by
      simp only [List.append_assoc]
      rfl]
    exact hscan
  refine ⟨w * OZ_G, hparse, ?_, ?_⟩
  · rw [labels_eq g]
    exact hparse
  · rw [hgoz]
    exact c6_bound w (g / OZ_G) hw

/-- C6 witness: the amended round-trip bound applied at 30 g. -/
theorem c6_label_roundtrip_amended_witness :
    (0 : ℚ) < 30 ∧
    ∃ v : ℚ,
      CaviarScraper.parse_size ((CaviarScraper.size_label_both 30).getD "") = some v ∧
      MainPy.parse_size_g ((MainPy.grams_to_label_both 30 none).getD "") = some v ∧
      |v - 30| ≤ 71 / 50 :=
  ⟨by norm_num, c6_label_roundtrip_amended 30 (by norm_num)⟩

theorem natChars_one : natChars 1 = ['1'] := by
  unfold natChars
  rw [dif_pos (by norm_num)]
  decide

theorem natChars_thirty : natChars 30 = ['3', '0'] := by
  unfold natChars
  rw [dif_neg (by norm_num)]
  norm_num
  unfold natChars
  rw [dif_pos (by norm_num)]
  decide

/-- C6 counterexample: at 30 g the label renders as "1.1 oz / 30 g";
`parse_size` reads the leading "1.1 oz" and returns 31.18445 g, which is
more than 0.5 g away from 30 g — refuting the claimed 0.5 g bound. -/
theorem c6_counterexample :
    CaviarScraper.size_label_both 30 = some "1.1 oz / 30 g" ∧
    CaviarScraper.parse_size "1.1 oz / 30 g" = some (623689 / 20000) ∧
    ¬(|(623689 / 20000 : ℚ) - 30| ≤ 1 / 2) := by
  have hfl1 : ⌊(30 : ℚ) / OZ_G⌋ = 1 := by
    rw [Int.floor_eq_iff]
    norm_num [OZ_G]
  have hpr1 : pyRound ((30 : ℚ) / OZ_G) = 1 := by
    unfold pyRound
    rw [hfl1]
    norm_num [OZ_G]
  have hfl2 : ⌊10 * ((30 : ℚ) / OZ_G)⌋ = 10 := by
    rw [Int.floor_eq_iff]
    norm_num [OZ_G]
  have hpr2 : pyRound (10 * ((30 : ℚ) / OZ_G)) = 11 := by
    unfold pyRound
    rw [hfl2]
    norm_num [OZ_G]
  have hA : ¬(|(30 : ℚ) / OZ_G - (pyRound ((30 : ℚ) / OZ_G) : ℚ)| < 1 / 20) := by
    rw [hpr1]
    rw [abs_of_nonneg (by norm_num [OZ_G])]
    norm_num [OZ_G]
  have hten11 : tenthChars 11 = ['1', '.', '1'] := by
    unfold tenthChars
    rw [if_neg (by norm_num)]
    rw [show ((11 : ℤ).natAbs) = 11 from rfl]
    rw [if_neg (by norm_num)]
    rw [show (11 : ℕ) / 10 = 1 from rfl, show (11 : ℕ) % 10 = 1 from rfl]
    rw [natChars_one]
    decide
  have hoch : CaviarScraper.ozChars ((30 : ℚ) / OZ_G) = ['1', '.', '1'] := by
    unfold CaviarScraper.ozChars
    rw [if_neg hA, hpr2]
    exact hten11
  have hpr30 : pyRound (30 : ℚ) = 30 := by
    unfold pyRound
    rw [show ⌊(30 : ℚ)⌋ = 30 from by norm_num]
    norm_num
  have hint30 : intChars (30 : ℤ) = ['3', '0'] := by
    unfold intChars
    rw [if_neg (by norm_num)]
    rw [show ((30 : ℤ).toNat) = 30 from rfl]
    exact natChars_thirty
  refine ⟨?lab, ?par, ?bound⟩
  case lab =>
    unfold CaviarScraper.size_label_both
    rw [if_neg (by norm_num), hoch, hpr30, hint30]
    decide
  case par =>
    have hlist : ("1.1 oz / 30 g").data =
        natChars 1 ++
          ('.' :: digCh 1 :: ' ' :: 'o' :: 'z' :: ' ' :: ['/', ' ', '3', '0', ' ', 'g']) := by
      rw [natChars_one]
      decide
    show scanSize ("1.1 oz / 30 g").data = some (623689 / 20000)
    rw [hlist]
    rw [scanSize_of_tryNum _ _ (by simp) (tryNum_frac 1 1 (by norm_num) _)]
    norm_num [OZ_G]
  case bound =>
    rw [abs_of_nonneg (by norm_num)]
    norm_num

/-- C7 witness: the no-listings line is present at a concrete date. -/
theorem c7_empty_run_message_witness :
    subStr EmailDigest.noListingsLine
      (EmailDigest.render_text "January 01, 2026"
        (EmailDigest.group_and_pick []).2 (EmailDigest.group_and_pick []).1) = true :=
  c7_empty_run_message "January 01, 2026"

/-- C8 witness: the refinement applied at a concrete flagged text. -/
theorem c8_non_sturgeon_refinement_witness :
    MainPy.contains_non_sturgeon_or_roe "salmon roe" = true :=
  (c8_non_sturgeon_refinement.1 "salmon roe").mpr
    ⟨⟨"salmon roe", by decide, by decide⟩, fun hc => absurd hc.1 (by decide)⟩
